import Mathlib

/-!
Verification development for the huawei_mesh_router client core:
a shallow embedding of the SCRAM-like crypto proof (client/crypto.py),
the request executor and authenticator (client/coreapi.py), the feature
detector (client/utils.py) and the generic changes watcher (utils.py),
with theorems settling the specification claims about them.

Bytes are modelled as `List Nat` with each entry below 256; 32-bit
arithmetic is explicit via reduction modulo 2^32.
-/

set_option maxRecDepth 100000

namespace HuaweiMesh

/-! Byte and hex utilities (models of Python bytes.hex / bytearray.fromhex
and str.encode of utf-8). -/

/-- Value of one hex digit character, `none` when the character is not a
hex digit. -/
def hexDigitVal (c : Char) : Option Nat :=
  if 48 ≤ c.toNat ∧ c.toNat ≤ 57 then some (c.toNat - 48)
  else if 97 ≤ c.toNat ∧ c.toNat ≤ 102 then some (c.toNat - 87)
  else if 65 ≤ c.toNat ∧ c.toNat ≤ 70 then some (c.toNat - 55)
  else none

/-- Decode a list of hex-digit characters, two per byte; `none` on a
malformed (non-hex or odd-length) input.  Models the failure of
`bytearray.fromhex` with a `ValueError` by returning `none`. -/
def hexToBytes : List Char → Option (List Nat)
  | [] => some []
  | c1 :: c2 :: rest =>
    match hexDigitVal c1, hexDigitVal c2, hexToBytes rest with
    | some h, some l, some bs => some ((h * 16 + l) :: bs)
    | _, _, _ => none
  | _ => none

/-- Model of Python `bytearray.fromhex` (strict hex pairs; the claims only
quantify over well-formed hex salts, where both behaviours agree). -/
def bytearrayFromhex (s : String) : Option (List Nat) :=
  hexToBytes s.data

/-- Lowercase hex digit character of a value below 16. -/
def hexDigitOfNat (n : Nat) : Char :=
  if n < 10 then Char.ofNat (48 + n) else Char.ofNat (87 + n)

/-- Model of Python `bytes.hex`: lowercase hex encoding. -/
def bytesToHex (bs : List Nat) : String :=
  String.mk ((bs.map (fun b => [hexDigitOfNat (b / 16), hexDigitOfNat (b % 16)])).flatten)

/-- UTF-8 encoding of one character. -/
def utf8Bytes (c : Char) : List Nat :=
  let n := c.toNat
  if n < 128 then [n]
  else if n < 2048 then [192 ||| (n >>> 6), 128 ||| (n &&& 63)]
  else if n < 65536 then [224 ||| (n >>> 12), 128 ||| ((n >>> 6) &&& 63), 128 ||| (n &&& 63)]
  else [240 ||| (n >>> 18), 128 ||| ((n >>> 12) &&& 63), 128 ||| ((n >>> 6) &&& 63), 128 ||| (n &&& 63)]

/-- UTF-8 bytes of a string, as Python `str.encode("utf-8")`. -/
def strBytes (s : String) : List Nat :=
  (s.data.map utf8Bytes).flatten

/-! SHA-256 (model of `hashlib.sha256`), with 32-bit words carried as
`Nat` reduced modulo 2^32. -/

/-- Reduce to a 32-bit word. -/
def u32 (n : Nat) : Nat := n % 4294967296

/-- Right-rotation of a 32-bit word. -/
def rotr (x n : Nat) : Nat := u32 ((x >>> n) ||| (x <<< (32 - n)))

/-- SHA-256 round constants (decimal). -/
def sha256K : List Nat :=
  [1116352408, 1899447441, 3049323471, 3921009573, 961987163, 1508970993,
   2453635748, 2870763221, 3624381080, 310598401, 607225278, 1426881987,
   1925078388, 2162078206, 2614888103, 3248222580, 3835390401, 4022224774,
   264347078, 604807628, 770255983, 1249150122, 1555081692, 1996064986,
   2554220882, 2821834349, 2952996808, 3210313671, 3336571891, 3584528711,
   113926993, 338241895, 666307205, 773529912, 1294757372, 1396182291,
   1695183700, 1986661051, 2177026350, 2456956037, 2730485921, 2820302411,
   3259730800, 3345764771, 3516065817, 3600352804, 4094571909, 275423344,
   430227734, 506948616, 659060556, 883997877, 958139571, 1322822218,
   1537002063, 1747873779, 1955562222, 2024104815, 2227730452, 2361852424,
   2428436474, 2756734187, 3204031479, 3329325298]

/-- SHA-256 initial hash value (decimal). -/
def sha256H0 : List Nat :=
  [1779033703, 3144134277, 1013904242, 2773480762,
   1359893119, 2600822924, 528734635, 1541459225]

/-- Big-endian packing of bytes into 32-bit words (trailing incomplete
groups are dropped; inputs are always whole blocks). -/
def bytesToWordsBE : List Nat → List Nat
  | a :: b :: c :: d :: rest => (a * 16777216 + b * 65536 + c * 256 + d) :: bytesToWordsBE rest
  | _ => []

/-- Big-endian bytes of a 32-bit word. -/
def wordToBytesBE (w : Nat) : List Nat :=
  [w / 16777216 % 256, w / 65536 % 256, w / 256 % 256, w % 256]

/-- Big-endian bytes of a 64-bit length field. -/
def lenToBytesBE (n : Nat) : List Nat :=
  [n / 2 ^ 56 % 256, n / 2 ^ 48 % 256, n / 2 ^ 40 % 256, n / 2 ^ 32 % 256,
   n / 2 ^ 24 % 256, n / 2 ^ 16 % 256, n / 2 ^ 8 % 256, n % 256]

/-- SHA-256 message padding: 0x80, zeros to 56 mod 64, 64-bit bit length. -/
def sha256Pad (msg : List Nat) : List Nat :=
  let L := msg.length
  let z := (120 - (L + 1) % 64) % 64
  msg ++ 128 :: List.replicate z 0 ++ lenToBytesBE (8 * L)

/-- Small sigma-0 word function of SHA-256. -/
def smallSigma0 (x : Nat) : Nat := (rotr x 7) ^^^ (rotr x 18) ^^^ (x >>> 3)

/-- Small sigma-1 word function of SHA-256. -/
def smallSigma1 (x : Nat) : Nat := (rotr x 17) ^^^ (rotr x 19) ^^^ (x >>> 10)

/-- Big sigma-0 word function of SHA-256. -/
def bigSigma0 (x : Nat) : Nat := (rotr x 2) ^^^ (rotr x 13) ^^^ (rotr x 22)

/-- Big sigma-1 word function of SHA-256. -/
def bigSigma1 (x : Nat) : Nat := (rotr x 6) ^^^ (rotr x 11) ^^^ (rotr x 25)

/-- Message-schedule extension, carried with the newest word first. -/
def scheduleRev : Nat → List Nat → List Nat
  | 0, acc => acc
  | n + 1, acc =>
    let x := u32 (smallSigma1 (acc.getD 1 0) + acc.getD 6 0 +
                  smallSigma0 (acc.getD 14 0) + acc.getD 15 0)
    scheduleRev n (x :: acc)

/-- The 64-entry message schedule of one 16-word block. -/
def sha256ExpandBlock (block : List Nat) : List Nat :=
  (scheduleRev 48 block.reverse).reverse

/-- One round of the SHA-256 compression function. -/
def compressRound (st : List Nat) (k w : Nat) : List Nat :=
  match st with
  | [a, b, c, d, e, f, g, h] =>
    let ch := (e &&& f) ^^^ ((e ^^^ 4294967295) &&& g)
    let maj := (a &&& b) ^^^ (a &&& c) ^^^ (b &&& c)
    let t1 := u32 (h + bigSigma1 e + ch + k + w)
    let t2 := u32 (bigSigma0 a + maj)
    [u32 (t1 + t2), a, b, c, u32 (d + t1), e, f, g]
  | other => other

/-- Process one 16-word block onto the running hash value. -/
def sha256ProcessBlock (hs block16 : List Nat) : List Nat :=
  let w := sha256ExpandBlock block16
  let st := (sha256K.zip w).foldl (fun s kw => compressRound s kw.1 kw.2) hs
  (hs.zip st).map (fun p => u32 (p.1 + p.2))

/-- Process all 16-word blocks; the fuel argument (initially the word
count) bounds the recursion, each step consuming 16 words. -/
def sha256BlocksFuel : Nat → List Nat → List Nat → List Nat
  | 0, hs, _ => hs
  | fuel + 1, hs, ws =>
    if ws = [] then hs
    else sha256BlocksFuel fuel (sha256ProcessBlock hs (ws.take 16)) (ws.drop 16)

/-- SHA-256 of a byte list, as `hashlib.sha256(msg).digest()`. -/
def sha256 (msg : List Nat) : List Nat :=
  let ws := bytesToWordsBE (sha256Pad msg)
  let hs := sha256BlocksFuel ws.length sha256H0 ws
  (hs.map wordToBytesBE).flatten

/-! HMAC-SHA256 (model of Python `hmac.new(key, msg, hashlib.sha256)`) and
PBKDF2-HMAC-SHA256 (model of `hashlib.pbkdf2_hmac("sha256", ...)`). -/

/-- HMAC-SHA256 per RFC 2104 with the 64-byte SHA-256 block size. -/
def hmacSha256 (key msg : List Nat) : List Nat :=
  let k0 := if 64 < key.length then sha256 key else key
  let k0 := k0 ++ List.replicate (64 - k0.length) 0
  let ipad := k0.map (fun b => b ^^^ 54)
  let opad := k0.map (fun b => b ^^^ 92)
  sha256 (opad ++ sha256 (ipad ++ msg))

/-- Iterated xor-accumulation of PBKDF2: remaining iterations, password,
previous U value, accumulated xor. -/
def pbkdf2U : Nat → List Nat → List Nat → List Nat → List Nat
  | 0, _, _, acc => acc
  | n + 1, pw, prev, acc =>
    let u := hmacSha256 pw prev
    pbkdf2U n pw u (List.zipWith (fun a b => a ^^^ b) acc u)

/-- One output block of PBKDF2-HMAC-SHA256 (1-based block index). -/
def pbkdf2Block (pw salt : List Nat) (iterations blockIndex : Nat) : List Nat :=
  let u1 := hmacSha256 pw (salt ++ wordToBytesBE blockIndex)
  pbkdf2U (iterations - 1) pw u1 u1

/-- PBKDF2-HMAC-SHA256 with requested output length `dklen`. -/
def pbkdf2HmacSha256 (pw salt : List Nat) (iterations dklen : Nat) : List Nat :=
  let nblocks := (dklen + 31) / 32
  (((List.range nblocks).map (fun i => pbkdf2Block pw salt iterations (i + 1))).flatten).take dklen

/-! The client proof of client/crypto.py. -/

/-- Translation of `get_client_proof` from client/crypto.py: `none` models
the `ValueError` that `bytearray.fromhex` raises on a malformed salt. -/
def get_client_proof (password salt : String) (iterations : Nat)
    (first_nonce server_nonce : String) : Option String :=
  match bytearrayFromhex salt with
  | none => none
  | some salt_bytes =>
    let salted_password := pbkdf2HmacSha256 (strBytes password) salt_bytes iterations 32
    let auth_msg := first_nonce ++ "," ++ server_nonce ++ "," ++ server_nonce
    let client_key := hmacSha256 (strBytes ("Client Key")) salted_password
    let stored_key := sha256 client_key
    let client_signature := hmacSha256 (strBytes auth_msg) stored_key
    let client_proof := List.zipWith (fun key sign => key ^^^ sign) client_key client_signature
    some (bytesToHex client_proof)

/-- The client proof as the specification words it: clientKey XOR
clientSignature, hex encoded, with saltedPassword, authMessage, clientKey,
storedKey and clientSignature given by the spec formulas. -/
def clientProofSpec (password saltHex : String) (iterations : Nat)
    (firstNonce serverNonce : String) : Option String :=
  (bytearrayFromhex saltHex).map (fun saltBytes =>
    let saltedPassword := pbkdf2HmacSha256 (strBytes password) saltBytes iterations 32
    let authMessage := firstNonce ++ "," ++ serverNonce ++ "," ++ serverNonce
    let clientKey := hmacSha256 (strBytes ("Client Key")) saltedPassword
    let storedKey := sha256 clientKey
    let clientSignature := hmacSha256 (strBytes authMessage) storedKey
    bytesToHex (List.zipWith (fun a b => a ^^^ b) clientKey clientSignature))



/-! Data model of client/coreapi.py: the CSRF pair, parsed JSON bodies
(restricted to the keys the code reads), HTTP responses, scripted server
behaviour, errors, and the mutable connection state.  Cookies are kept by
aiohttp and only logged by the code, so they are not modelled; `session`
records whether the aiohttp session object exists. -/

/-- A CSRF (param, token) pair. -/
structure Csrf where
  csrf_param : String
  csrf_token : String
deriving DecidableEq, Repr

/-- Parsed JSON body, restricted to the keys coreapi.py reads; each field
is `none` when the key is absent. -/
structure Body where
  csrf_param : Option String := none
  csrf_token : Option String := none
  err : Option Int := none
  errorCategory : Option String := none
  errcode : Option Int := none
  csrf : Option String := none
  servernonce : Option String := none
  salt : Option String := none
  iterations : Option Nat := none
  rsan : Option String := none
  rsae : Option String := none
  rsapubkeysignature : Option String := none
deriving DecidableEq, Repr

/-- An HTTP response: status, parsed JSON body (`none` models an empty
body, parsed to null), and for the login page the contents of the two
csrf meta tags. -/
structure HttpResponse where
  status : Nat
  text : Option Body := none
  metaParam : Option String := none
  metaToken : Option String := none
deriving DecidableEq, Repr

/-- One scripted server behaviour for one HTTP call: a delivered response
or a network-level failure (timeout or connection error). -/
inductive ServerResponse where
  | ok (r : HttpResponse)
  | netFail
deriving DecidableEq, Repr

/-- Python exceptions the embedded code distinguishes: ApiCallError with
its code and category, AuthenticationError with its reason code, and any
other exception (TypeError, KeyError, AttributeError, ValueError, ...). -/
inductive PyErr where
  | api (code : Option Int) (category : Option String)
  | auth (reason : String)
  | other
deriving DecidableEq, Repr

/-- Shape of a POST body (the data part; the csrf part is recorded
separately on the event). -/
inductive PostData where
  | loginNonce (username firstnonce : String)
  | loginProof (clientproof finalnonce : String)
  | logoutData
  | apiData
deriving DecidableEq, Repr

/-- Observable events of one run: lock transitions and issued HTTP
requests (each POST recorded with the csrf pair it carries). -/
inductive Event where
  | acquireCall
  | releaseCall
  | acquireAuth
  | releaseAuth
  | httpGet (path : String)
  | httpPost (path : String) (csrf : Option Csrf) (data : PostData)
deriving DecidableEq, Repr

/-- Mutable state of a HuaweiCoreApi instance plus the remaining scripted
server responses (consumed one per issued HTTP call). -/
structure ApiState where
  session : Bool
  active_csrf : Option Csrf
  public_key : Option (String × String × String)
  is_initialized : Bool
  pending : List ServerResponse
deriving DecidableEq, Repr

/-- Connection configuration: credentials, plus the value the nonce
generator returns (generate_nonce is random; it is modelled as an
oracle fixed per run). -/
structure Config where
  user : String
  password : String
  firstNonce : String
deriving DecidableEq, Repr

/-- Result of running one embedded coroutine: final state, emitted
events, and normal result or raised exception. -/
structure RunResult (α : Type) where
  st : ApiState
  trace : List Event
  out : Except PyErr α

/-- Decidable equality for Except, needed to evaluate run outcomes. -/
instance {e a : Type} [DecidableEq e] [DecidableEq a] : DecidableEq (Except e a) := fun x y =>
  match x, y with
  | Except.ok u, Except.ok v => decidable_of_iff (u = v) (by simp)
  | Except.error u, Except.error v => decidable_of_iff (u = v) (by simp)
  | Except.ok _, Except.error _ => isFalse (by simp)
  | Except.error _, Except.ok _ => isFalse (by simp)

/-- Sequencing: run the continuation when the first part returned
normally, keeping its state and appending its events. -/
def step {α β : Type} (r : RunResult α) (f : α → ApiState → RunResult β) : RunResult β :=
  match r.out with
  | Except.error e => ⟨r.st, r.trace, Except.error e⟩
  | Except.ok a =>
    let r2 := f a r.st
    ⟨r2.st, r.trace ++ r2.trace, r2.out⟩

/-- Normal return without events. -/
def ret {α : Type} (a : α) (st : ApiState) : RunResult α := ⟨st, [], Except.ok a⟩

/-- Raised exception without events. -/
def throwE {α : Type} (e : PyErr) (st : ApiState) : RunResult α := ⟨st, [], Except.error e⟩

/-! Constants of client/coreapi.py. -/

/-- Error code -2 of unauthorized api calls. -/
def APICALL_ERRCODE_UNAUTHORIZED : Int := -2

/-- Error code -3 of failed requests. -/
def APICALL_ERRCODE_REQUEST : Int := -3

/-- Category string of credential errors. -/
def APICALL_ERRCAT_CREDENTIALS : String := "user_pass_err"

/-- Category string of CSRF errors. -/
def APICALL_ERRCAT_CSRF : String := "csrf_error"

/-- Category string of request errors. -/
def APICALL_ERRCAT_REQUEST : String := "request_error"

/-- Category string of the vendor too-many-users error. -/
def APICALL_ERRCAT_TOO_MANY_USERS : String := "Too_Many_user"

/-- Category string of unauthorized api calls. -/
def APICALL_ERRCAT_UNAUTHORIZED : String := "unauthorized"

/-- Reason code of general authentication failures. -/
def AUTH_FAILURE_GENERAL : String := "auth_general"

/-- Reason code of credential authentication failures. -/
def AUTH_FAILURE_CREDENTIALS : String := "auth_invalid_credentials"

/-- Reason code of CSRF authentication failures. -/
def AUTH_FAILURE_CSRF : String := "auth_invalid_csrf"

/-- Reason code of too-many-users authentication failures. -/
def AUTH_FAILURE_TOO_MANY_USERS : String := "auth_too_many_users"

/-! Translations of the methods and helpers of client/coreapi.py. -/

/-- Translation of `_check_authorized` (the default is-authorized
predicate): every status except 404 counts as authorized. -/
def check_authorized (response : HttpResponse) (_result : Option Body) : Bool :=
  response.status ≠ 404

/-- Translation of the errcode branch of `_handle_error_dict`. -/
def handle_errcode (d : Body) : Except PyErr Unit :=
  match d.errcode with
  | some e =>
    if e ≠ 0 then
      Except.error (PyErr.api (some e)
        (if d.csrf = some ("Menu.csrf_err") then some APICALL_ERRCAT_CSRF else none))
    else Except.ok ()
  | none => Except.ok ()

/-- Translation of `_handle_error_dict`: raise ApiCallError when the body
carries a vendor error object. -/
def handle_error_dict (data : Option Body) : Except PyErr Unit :=
  match data with
  | none => Except.ok ()
  | some d =>
    match d.err with
    | some e =>
      if e ≠ 0 then
        Except.error (PyErr.api (some e) (some (d.errorCategory.getD ("unknown"))))
      else handle_errcode d
    | none => handle_errcode d

/-- Translation of `_update_csrf`. -/
def update_csrf (p t : String) (st : ApiState) : ApiState :=
  { st with active_csrf := some ⟨p, t⟩ }

/-- The csrf pair carried by a body, when both keys are present. -/
def csrf_of (data : Option Body) : Option Csrf :=
  match data with
  | some d =>
    match d.csrf_param, d.csrf_token with
    | some p, some t => some ⟨p, t⟩
    | _, _ => none
  | none => none

/-- The csrf pair active after processing a body: the body pair when the
body carries one, otherwise the previous pair. -/
def adopted_csrf (data : Option Body) (old : Option Csrf) : Option Csrf :=
  match csrf_of data with
  | some cp => some cp
  | none => old

/-- Translation of `_handle_csrf_dict`: adopt the pair when both keys are
present in the body, otherwise keep the previous pair. -/
def handle_csrf_dict (data : Option Body) (st : ApiState) : ApiState :=
  { st with active_csrf := adopted_csrf data st.active_csrf }

/-- The public-key triple carried by a body, when all three keys are
present. -/
def public_key_of (data : Option Body) : Option (String × String × String) :=
  match data with
  | some d =>
    match d.rsan, d.rsae, d.rsapubkeysignature with
    | some n, some e, some s => some (n, e, s)
    | _, _, _ => none
  | none => none

/-- Translation of `_handle_public_key_dict`: install the key material of
the body, or clear the stored key when the body carries none. -/
def handle_public_key_dict (data : Option Body) (st : ApiState) : ApiState :=
  { st with public_key := public_key_of data }

/-- Translation of `_get_raw`: a missing session object raises the same
wrapped ApiCallError (code -3, request_error) as a network failure, and
issues no HTTP request; otherwise the next scripted response is consumed
(an exhausted script behaves as a network failure). -/
def get_raw (path : String) (st : ApiState) : RunResult HttpResponse :=
  if st.session = false then
    throwE (PyErr.api (some APICALL_ERRCODE_REQUEST) (some APICALL_ERRCAT_REQUEST)) st
  else
    match st.pending with
    | [] =>
      ⟨st, [Event.httpGet path],
        Except.error (PyErr.api (some APICALL_ERRCODE_REQUEST) (some APICALL_ERRCAT_REQUEST))⟩
    | ServerResponse.netFail :: rest =>
      ⟨{ st with pending := rest }, [Event.httpGet path],
        Except.error (PyErr.api (some APICALL_ERRCODE_REQUEST) (some APICALL_ERRCAT_REQUEST))⟩
    | ServerResponse.ok r :: rest =>
      ⟨{ st with pending := rest }, [Event.httpGet path], Except.ok r⟩

/-- Translation of `_post_raw`, recording the csrf pair the request body
carries. -/
def post_raw (path : String) (dtoCsrf : Option Csrf) (data : PostData)
    (st : ApiState) : RunResult HttpResponse :=
  if st.session = false then
    throwE (PyErr.api (some APICALL_ERRCODE_REQUEST) (some APICALL_ERRCAT_REQUEST)) st
  else
    match st.pending with
    | [] =>
      ⟨st, [Event.httpPost path dtoCsrf data],
        Except.error (PyErr.api (some APICALL_ERRCODE_REQUEST) (some APICALL_ERRCAT_REQUEST))⟩
    | ServerResponse.netFail :: rest =>
      ⟨{ st with pending := rest }, [Event.httpPost path dtoCsrf data],
        Except.error (PyErr.api (some APICALL_ERRCODE_REQUEST) (some APICALL_ERRCAT_REQUEST))⟩
    | ServerResponse.ok r :: rest =>
      ⟨{ st with pending := rest }, [Event.httpPost path dtoCsrf data], Except.ok r⟩

/-- Translation of `_refresh_session`: ensure the session object exists,
clear its cookies, and clear the csrf pair. -/
def refresh_session (st : ApiState) : ApiState :=
  { st with session := true, active_csrf := none }

/-- Translation of `_init_csrf`: fetch the login page; on a non-200
status return false; on a page missing a csrf meta tag the regex match is
None and `.group(1)` raises (modelled as PyErr.other); otherwise adopt
the pair and return true. -/
def init_csrf (st : ApiState) : RunResult Bool :=
  step (get_raw ("html/index.html#/login") st) fun r st1 =>
    if r.status ≠ 200 then ret false st1
    else
      match r.metaParam, r.metaToken with
      | some p, some t => ret true (update_csrf p t st1)
      | _, _ => throwE PyErr.other st1

/-- Translation of the `lock_auth_call` decorator: the auth lock is
acquired around the wrapped call and released also on exception. -/
def lock_auth {α : Type} (f : ApiState → RunResult α) (st : ApiState) : RunResult α :=
  let r := f st
  ⟨r.st, Event.acquireAuth :: r.trace ++ [Event.releaseAuth], r.out⟩

/-- Translation of the `lock_external_call` decorator. -/
def lock_call {α : Type} (f : ApiState → RunResult α) (st : ApiState) : RunResult α :=
  let r := f st
  ⟨r.st, Event.acquireCall :: r.trace ++ [Event.releaseCall], r.out⟩

/-- Exception mapping of the `handle_auth_exception` decorator. -/
def auth_exception_map (e : PyErr) : PyErr :=
  match e with
  | PyErr.api _ cat =>
    if cat = some APICALL_ERRCAT_CREDENTIALS then PyErr.auth AUTH_FAILURE_CREDENTIALS
    else if cat = some APICALL_ERRCAT_CSRF then PyErr.auth AUTH_FAILURE_CSRF
    else if cat = some APICALL_ERRCAT_TOO_MANY_USERS then PyErr.auth AUTH_FAILURE_TOO_MANY_USERS
    else PyErr.auth AUTH_FAILURE_GENERAL
  | PyErr.auth r => PyErr.auth r
  | PyErr.other => PyErr.auth AUTH_FAILURE_GENERAL

/-- Translation of the `handle_auth_exception` decorator. -/
def handle_auth_exception {α : Type} (r : RunResult α) : RunResult α :=
  match r.out with
  | Except.error e => ⟨r.st, r.trace, Except.error (auth_exception_map e)⟩
  | Except.ok _ => r

/-- Translation of the body of `authenticate` (without its two
decorators): refresh the session, fetch the initial csrf, post the nonce,
compute and post the client proof. -/
def authenticate_inner (cfg : Config) (st : ApiState) : RunResult Unit :=
  let st := refresh_session st
  step (init_csrf st) fun gotCsrf st1 =>
    if gotCsrf = false then throwE (PyErr.auth AUTH_FAILURE_GENERAL) st1
    else
      step (post_raw ("api/system/user_login_nonce") st1.active_csrf
          (PostData.loginNonce cfg.user cfg.firstNonce) st1) fun r st2 =>
        if r.status ≠ 200 then throwE (PyErr.auth AUTH_FAILURE_GENERAL) st2
        else
          let result := r.text
          let st3 := handle_csrf_dict result st2
          match handle_error_dict result with
          | Except.error e => throwE e st3
          | Except.ok _ =>
            match result with
            | none => throwE PyErr.other st3
            | some body =>
              match body.servernonce, body.iterations, body.salt with
              | some server_nonce, some iterations, some salt =>
                match get_client_proof cfg.password salt iterations cfg.firstNonce server_nonce with
                | none => throwE PyErr.other st3
                | some client_proof =>
                  step (post_raw ("api/system/user_login_proof") st3.active_csrf
                      (PostData.loginProof client_proof server_nonce) st3) fun r2 st4 =>
                    if r2.status ≠ 200 then throwE (PyErr.auth AUTH_FAILURE_GENERAL) st4
                    else
                      let result2 := r2.text
                      let st5 := handle_csrf_dict result2 st4
                      match handle_error_dict result2 with
                      | Except.error e => throwE e st5
                      | Except.ok _ => ret () (handle_public_key_dict result2 st5)
              | _, _, _ => throwE PyErr.other st3

/-- Translation of `authenticate` with its decorators:
handle_auth_exception outside lock_auth_call outside the body. -/
def authenticate (cfg : Config) (st : ApiState) : RunResult Unit :=
  handle_auth_exception (lock_auth (authenticate_inner cfg) st)

/-- Translation of `_ensure_initialized`. -/
def ensure_initialized (cfg : Config) (st : ApiState) : RunResult Unit :=
  if st.is_initialized then ret () st
  else
    step (authenticate cfg st) fun _ st1 =>
      ret () { st1 with is_initialized := true }

/-- Swallowing of every exception by the try/except of `_try_logout`. -/
def swallow (r : RunResult Unit) : RunResult Unit := ⟨r.st, r.trace, Except.ok ()⟩

/-- Translation of the body of `_try_logout`: a best-effort logout POST
whose failures (of any kind) are swallowed. -/
def try_logout_body (st : ApiState) : RunResult Unit :=
  swallow
    (step (post_raw ("api/system/user_logout") st.active_csrf PostData.logoutData st)
      fun r st1 =>
        if r.status ≠ 200 then ret () st1
        else
          let result := r.text
          let st2 := handle_csrf_dict result st1
          match handle_error_dict result with
          | Except.error e => throwE e st2
          | Except.ok _ => ret () st2)

/-- Translation of the `retry_on_csrf_error` decorator: on an ApiCallError
of category csrf_error, run `_init_csrf`; when it returns true, run the
wrapped call once more (whose outcome, success or any error, is final);
when it returns false re-raise the original error; when it raises, that
new exception propagates. -/
def retry_on_csrf_error {α : Type} (f : ApiState → RunResult α) (st : ApiState) : RunResult α :=
  let r := f st
  match r.out with
  | Except.error (PyErr.api code cat) =>
    if cat = some APICALL_ERRCAT_CSRF then
      let r2 := init_csrf r.st
      match r2.out with
      | Except.ok true =>
        let r3 := f r2.st
        ⟨r3.st, r.trace ++ r2.trace ++ r3.trace, r3.out⟩
      | Except.ok false => ⟨r2.st, r.trace ++ r2.trace, Except.error (PyErr.api code cat)⟩
      | Except.error e2 => ⟨r2.st, r.trace ++ r2.trace, Except.error e2⟩
    else r
  | _ => r

/-- Translation of `_try_logout` with its (inert, since the body swallows
every exception) retry_on_csrf_error decorator. -/
def try_logout (st : ApiState) : RunResult Unit :=
  retry_on_csrf_error try_logout_body st

/-- Translation of lines 508-510 of `get`: adopt any csrf pair of the
final body, then raise any vendor error it carries, then return it. -/
def finish_get (result : Option Body) (st : ApiState) : RunResult (Option Body) :=
  let st1 := handle_csrf_dict result st
  match handle_error_dict result with
  | Except.error e => throwE e st1
  | Except.ok _ => ret result st1

/-- Translation of the body of `get` (without its two decorators). -/
def get_inner (cfg : Config) (chk : HttpResponse → Option Body → Bool)
    (path : String) (st : ApiState) : RunResult (Option Body) :=
  step (ensure_initialized cfg st) fun _ st0 =>
  step (get_raw path st0) fun r1 st1 =>
    if chk r1 r1.text then finish_get r1.text st1
    else
      step (try_logout st1) fun _ st2 =>
      step (authenticate cfg st2) fun _ st3 =>
      step (get_raw path st3) fun r2 st4 =>
        if chk r2 r2.text then finish_get r2.text st4
        else
          throwE (PyErr.api (some APICALL_ERRCODE_UNAUTHORIZED)
            (some APICALL_ERRCAT_UNAUTHORIZED)) st4

/-- Translation of `get` with its decorators: retry_on_csrf_error outside
lock_external_call outside the body (the Python decorator list applies
bottom-up). -/
def apiGet (cfg : Config) (chk : HttpResponse → Option Body → Bool)
    (path : String) (st : ApiState) : RunResult (Option Body) :=
  retry_on_csrf_error (fun s => lock_call (get_inner cfg chk path) s) st

/-- Translation of the body of `post` (without its two decorators).
extra_data and headers do not interact with any modelled observable and
are omitted. -/
def post_inner (cfg : Config) (chk : HttpResponse → Option Body → Bool)
    (path : String) (st : ApiState) : RunResult (Option Body) :=
  step (ensure_initialized cfg st) fun _ st0 =>
  step (post_raw path st0.active_csrf PostData.apiData st0) fun r1 st1 =>
    let result1 := r1.text
    let st2 := handle_csrf_dict result1 st1
    match handle_error_dict result1 with
    | Except.error e => throwE e st2
    | Except.ok _ =>
      if chk r1 result1 then ret result1 st2
      else
        step (try_logout st2) fun _ st3 =>
        step (authenticate cfg st3) fun _ st4 =>
        step (post_raw path st4.active_csrf PostData.apiData st4) fun r2 st5 =>
          if chk r2 r2.text then
            let st6 := handle_csrf_dict r2.text st5
            match handle_error_dict r2.text with
            | Except.error e => throwE e st6
            | Except.ok _ => ret r2.text st6
          else
            throwE (PyErr.api (some APICALL_ERRCODE_UNAUTHORIZED)
              (some APICALL_ERRCAT_UNAUTHORIZED)) st5

/-- Translation of `post` with its decorators. -/
def apiPost (cfg : Config) (chk : HttpResponse → Option Body → Bool)
    (path : String) (st : ApiState) : RunResult (Option Body) :=
  retry_on_csrf_error (fun s => lock_call (post_inner cfg chk path) s) st

/-- Translation of the body of `disconnect` (without its two lock
decorators): best-effort logout, close and drop the session. -/
def disconnect_body (st : ApiState) : RunResult Unit :=
  if st.session then
    step (try_logout st) fun _ st1 => ret () { st1 with session := false }
  else ret () st

/-- Translation of `disconnect` with its decorators: lock_external_call
outside lock_auth_call outside the body. -/
def disconnect (st : ApiState) : RunResult Unit :=
  lock_call (fun s => lock_auth disconnect_body s) st

/-! Claim C1: the client proof. -/

/-- C1: for every password, hex salt, iteration count, firstNonce and
serverNonce, get_client_proof returns the hex encoding of clientKey XOR
clientSignature with saltedPassword = PBKDF2-HMAC-SHA256(password,
bytes(saltHex), iterations, 32), clientKey = HMAC-SHA256(key is the
string Client Key, message saltedPassword), storedKey = SHA256(clientKey),
clientSignature = HMAC-SHA256(key authMessage, message storedKey) and
authMessage = firstNonce plus comma plus serverNonce plus comma plus
serverNonce (the server nonce twice); being a Lean function of exactly the
five arguments, it is deterministic in them. -/
theorem claim1_client_proof (password salt : String) (iterations : Nat)
    (first_nonce server_nonce : String) :
    get_client_proof password salt iterations first_nonce server_nonce
      = clientProofSpec password salt iterations first_nonce server_nonce := by
  unfold get_client_proof clientProofSpec
  cases bytearrayFromhex salt <;> rfl

/-! Structural lemmas about the embedded combinators. -/

/-- Trace of a call-locked run: the call lock is acquired first and
released last, also when the wrapped call raises. -/
theorem lock_call_trace {α : Type} (f : ApiState → RunResult α) (st : ApiState) :
    (lock_call f st).trace = Event.acquireCall :: (f st).trace ++ [Event.releaseCall] := rfl

/-- Outcome of a call-locked run is the wrapped call's outcome. -/
theorem lock_call_out {α : Type} (f : ApiState → RunResult α) (st : ApiState) :
    (lock_call f st).out = (f st).out := rfl

/-- The trace of `_init_csrf` is at most the one login-page GET; in
particular it contains no call-lock events. -/
theorem init_csrf_trace (st : ApiState) :
    (init_csrf st).trace = [] ∨ (init_csrf st).trace = [Event.httpGet ("html/index.html#/login")] := by
  unfold init_csrf step get_raw
  rcases st.session with _ | _
  · simp [throwE]
  · rcases st.pending with _ | ⟨r | _, rest⟩ <;> simp [ret, throwE, update_csrf]
    by_cases h : r.status = 200 <;> simp [h]
    rcases r.metaParam with _ | p <;> rcases r.metaToken with _ | t <;> simp [ret, throwE, update_csrf]

/-- Trace shape of a call wrapped like `get`/`post` (retry_on_csrf_error
outside lock_external_call): either one locked segment, or one locked
segment followed by the lock-free csrf refresh, optionally followed by a
second locked segment for the retried attempt.  The call lock is balanced
around each attempt but is not held across the csrf refresh. -/
theorem csrf_retry_lock_shape {α : Type} (g : ApiState → RunResult α) (st : ApiState) :
    (∃ u, (retry_on_csrf_error (fun s => lock_call g s) st).trace
        = Event.acquireCall :: u ++ [Event.releaseCall])
    ∨ (∃ u v, (retry_on_csrf_error (fun s => lock_call g s) st).trace
        = (Event.acquireCall :: u ++ [Event.releaseCall]) ++ v
        ∧ Event.acquireCall ∉ v ∧ Event.releaseCall ∉ v)
    ∨ (∃ u v w, (retry_on_csrf_error (fun s => lock_call g s) st).trace
        = (Event.acquireCall :: u ++ [Event.releaseCall]) ++ v
          ++ (Event.acquireCall :: w ++ [Event.releaseCall])
        ∧ Event.acquireCall ∉ v ∧ Event.releaseCall ∉ v) := by
  have hv := init_csrf_trace (lock_call g st).st
  unfold retry_on_csrf_error
  rcases hout : (lock_call g st).out with e | a
  · rcases e with ⟨code, cat⟩ | r | _
    · by_cases hcat : cat = some APICALL_ERRCAT_CSRF
      · rcases hout2 : (init_csrf (lock_call g st).st).out with e2 | b
        · refine Or.inr (Or.inl ⟨(g st).trace, (init_csrf (lock_call g st).st).trace, ?_⟩)
          simp [hout, hcat, hout2, lock_call_trace]
          rcases hv with hv | hv <;> simp [hv]
        · rcases b with _ | _
          · refine Or.inr (Or.inl ⟨(g st).trace, (init_csrf (lock_call g st).st).trace, ?_⟩)
            simp [hout, hcat, hout2, lock_call_trace]
            rcases hv with hv | hv <;> simp [hv]
          · refine Or.inr (Or.inr ⟨(g st).trace, (init_csrf (lock_call g st).st).trace,
              (g (init_csrf (lock_call g st).st).st).trace, ?_⟩)
            simp [hout, hcat, hout2, lock_call_trace]
            rcases hv with hv | hv <;> simp [hv]
      · exact Or.inl ⟨(g st).trace, by simp [hout, hcat, lock_call_trace]⟩
    · exact Or.inl ⟨(g st).trace, by simp [hout, lock_call_trace]⟩
    · exact Or.inl ⟨(g st).trace, by simp [hout, lock_call_trace]⟩
  · exact Or.inl ⟨(g st).trace, by simp [hout, lock_call_trace]⟩

/-! Claim C2: lock and retry wrapping order. -/

/-- C2 counterexample: with a server that answers the first GET with a
csrf_error body, then serves the login page, then succeeds, the call
lock is released (trace index 2) before the CSRF-triggered retry of the
same logical call (the second attempt at trace index 5, with the csrf
refresh GET at index 3 performed while the lock is not held): the
decorator order is retry_on_csrf_error outside lock_external_call, not
call-lock outermost. -/
theorem claim2_counterexample :
    (apiGet ⟨"u", "pw", "n"⟩ check_authorized ("p")
        ⟨true, some ⟨"p0", "t0"⟩, none, true,
          [ServerResponse.ok { status := 200, text := some { err := some 1, errorCategory := some ("csrf_error") } },
           ServerResponse.ok { status := 200, metaParam := some ("p1"), metaToken := some ("t1") },
           ServerResponse.ok { status := 200, text := some {} }]⟩).trace
      = [Event.acquireCall, Event.httpGet ("p"), Event.releaseCall,
         Event.httpGet ("html/index.html#/login"),
         Event.acquireCall, Event.httpGet ("p"), Event.releaseCall] := by
  decide

/-- C2 amended: for both Get and Post the wrapping order is CSRF-retry
outermost, then the call lock, then the unauthorized retry and the raw
HTTP call; the call lock is acquired and released around each attempt
cycle, and a CSRF-triggered retry re-acquires it, the csrf refresh
happening with the lock released. -/
theorem claim2_lock_structure (cfg : Config) (chk : HttpResponse → Option Body → Bool)
    (path : String) (st sp : ApiState) (payloadPath : String) :
    ((∃ u, (apiGet cfg chk path st).trace = Event.acquireCall :: u ++ [Event.releaseCall])
      ∨ (∃ u v, (apiGet cfg chk path st).trace
          = (Event.acquireCall :: u ++ [Event.releaseCall]) ++ v
          ∧ Event.acquireCall ∉ v ∧ Event.releaseCall ∉ v)
      ∨ (∃ u v w, (apiGet cfg chk path st).trace
          = (Event.acquireCall :: u ++ [Event.releaseCall]) ++ v
            ++ (Event.acquireCall :: w ++ [Event.releaseCall])
          ∧ Event.acquireCall ∉ v ∧ Event.releaseCall ∉ v))
    ∧ ((∃ u, (apiPost cfg chk payloadPath sp).trace = Event.acquireCall :: u ++ [Event.releaseCall])
      ∨ (∃ u v, (apiPost cfg chk payloadPath sp).trace
          = (Event.acquireCall :: u ++ [Event.releaseCall]) ++ v
          ∧ Event.acquireCall ∉ v ∧ Event.releaseCall ∉ v)
      ∨ (∃ u v w, (apiPost cfg chk payloadPath sp).trace
          = (Event.acquireCall :: u ++ [Event.releaseCall]) ++ v
            ++ (Event.acquireCall :: w ++ [Event.releaseCall])
          ∧ Event.acquireCall ∉ v ∧ Event.releaseCall ∉ v)) :=
  ⟨csrf_retry_lock_shape (get_inner cfg chk path) st,
   csrf_retry_lock_shape (post_inner cfg chk payloadPath) sp⟩

/-! Step lemmas for symbolic runs over explicit scripts. -/

/-- ensure_initialized is a no-op on an initialized state. -/
theorem ensure_initialized_of_init (cfg : Config) (st : ApiState)
    (h : st.is_initialized = true) : ensure_initialized cfg st = ret () st := by
  simp [ensure_initialized, h]

/-- One GET against an explicit script consumes its head. -/
theorem get_raw_cons_ok (path : String) (c : Option Csrf) (pk : Option (String × String × String))
    (ini : Bool) (r : HttpResponse) (rest : List ServerResponse) :
    get_raw path ⟨true, c, pk, ini, ServerResponse.ok r :: rest⟩
      = ⟨⟨true, c, pk, ini, rest⟩, [Event.httpGet path], Except.ok r⟩ := rfl

/-- One POST against an explicit script consumes its head. -/
theorem post_raw_cons_ok (path : String) (dtoCsrf : Option Csrf) (d : PostData)
    (c : Option Csrf) (pk : Option (String × String × String))
    (ini : Bool) (r : HttpResponse) (rest : List ServerResponse) :
    post_raw path dtoCsrf d ⟨true, c, pk, ini, ServerResponse.ok r :: rest⟩
      = ⟨⟨true, c, pk, ini, rest⟩, [Event.httpPost path dtoCsrf d], Except.ok r⟩ := rfl


/-- The best-effort logout always returns normally, consumes exactly one
scripted response, emits exactly one logout POST carrying the csrf pair
active when it starts, and touches at most the active csrf pair of the
state. -/
theorem try_logout_consume (c : Option Csrf) (pk : Option (String × String × String))
    (ini : Bool) (sr : ServerResponse) (rest : List ServerResponse) :
    ∃ c1, try_logout ⟨true, c, pk, ini, sr :: rest⟩
      = ⟨⟨true, c1, pk, ini, rest⟩,
         [Event.httpPost ("api/system/user_logout") c PostData.logoutData], Except.ok ()⟩ := by
  unfold try_logout retry_on_csrf_error try_logout_body swallow step post_raw
  rcases sr with r | _
  · by_cases h : r.status = 200
    · rcases hed : handle_error_dict r.text with e | u
      · exact ⟨adopted_csrf r.text c,
          by simp [h, hed, handle_csrf_dict, ret, throwE]⟩
      · exact ⟨adopted_csrf r.text c,
          by simp [h, hed, handle_csrf_dict, ret, throwE]⟩
    · exact ⟨c, by simp [h, ret]⟩
  · exact ⟨c, by simp [ret, throwE]⟩

/-- A fully successful authentication against an explicit three-response
script: login page with metas, nonce response with challenge and rotated
csrf pair, proof response without error; the auth lock wraps the three
requests, the nonce POST carries the page pair, the proof POST carries
the nonce-rotated pair and the computed client proof. -/
theorem authenticate_success (cfg : Config) (c : Option Csrf)
    (pk : Option (String × String × String)) (ini : Bool)
    (idxR nonceR proofR : HttpResponse) (rest : List ServerResponse)
    (p1 t1 : String) (nb : Body) (p2 t2 sn sa : String) (it : Nat) (cp : String)
    (hidx : idxR.status = 200) (hm1 : idxR.metaParam = some p1) (hm2 : idxR.metaToken = some t1)
    (hns : nonceR.status = 200) (hnt : nonceR.text = some nb)
    (herrN : handle_error_dict (some nb) = Except.ok ())
    (hnbp : nb.csrf_param = some p2) (hnbt : nb.csrf_token = some t2)
    (hsn : nb.servernonce = some sn) (hit : nb.iterations = some it) (hsa : nb.salt = some sa)
    (hcp : get_client_proof cfg.password sa it cfg.firstNonce sn = some cp)
    (hps : proofR.status = 200)
    (herrP : handle_error_dict proofR.text = Except.ok ()) :
    authenticate cfg
        ⟨true, c, pk, ini, ServerResponse.ok idxR :: ServerResponse.ok nonceR
          :: ServerResponse.ok proofR :: rest⟩
      = ⟨⟨true, adopted_csrf proofR.text (some ⟨p2, t2⟩),
          public_key_of proofR.text, ini, rest⟩,
         [Event.acquireAuth, Event.httpGet ("html/index.html#/login"),
          Event.httpPost ("api/system/user_login_nonce") (some ⟨p1, t1⟩)
            (PostData.loginNonce cfg.user cfg.firstNonce),
          Event.httpPost ("api/system/user_login_proof") (some ⟨p2, t2⟩)
            (PostData.loginProof cp sn),
          Event.releaseAuth], Except.ok ()⟩ := by
  simp [authenticate, handle_auth_exception, lock_auth, authenticate_inner, refresh_session,
    init_csrf, step, get_raw, post_raw, update_csrf, handle_csrf_dict, handle_public_key_dict,
    hidx, hm1, hm2, hns, hnt, herrN, hnbp, hnbt, hsn, hit, hsa, hcp, hps, herrP,
    adopted_csrf, csrf_of, ret, throwE]

/-- A GET whose first response is accepted by the predicate but whose
body carries a csrf_error vendor object, against a script that then
serves the login page and a final response: the whole call is retried
once after the lock-free csrf refresh, with no logout and no re-login,
and the outcome of the retried attempt (success or any error) is final. -/
theorem run_get_csrf_retry (cfg : Config) (chk : HttpResponse → Option Body → Bool)
    (path : String) (c0 : Option Csrf) (pk : Option (String × String × String))
    (r1 idxR r2 : HttpResponse) (rest : List ServerResponse)
    (e1 : Option Int) (p1 t1 : String)
    (hchk1 : chk r1 r1.text = true)
    (herr1 : handle_error_dict r1.text = Except.error (PyErr.api e1 (some APICALL_ERRCAT_CSRF)))
    (hidx : idxR.status = 200) (hm1 : idxR.metaParam = some p1) (hm2 : idxR.metaToken = some t1)
    (hchk2 : chk r2 r2.text = true) :
    (apiGet cfg chk path ⟨true, c0, pk, true,
        ServerResponse.ok r1 :: ServerResponse.ok idxR :: ServerResponse.ok r2 :: rest⟩).out
      = (match handle_error_dict r2.text with
         | Except.error e => Except.error e
         | Except.ok _ => Except.ok r2.text)
    ∧ (apiGet cfg chk path ⟨true, c0, pk, true,
        ServerResponse.ok r1 :: ServerResponse.ok idxR :: ServerResponse.ok r2 :: rest⟩).trace
      = [Event.acquireCall, Event.httpGet path, Event.releaseCall,
         Event.httpGet ("html/index.html#/login"),
         Event.acquireCall, Event.httpGet path, Event.releaseCall] := by
  rcases herr2 : handle_error_dict r2.text with e2 | u2 <;>
    simp [apiGet, retry_on_csrf_error, lock_call, get_inner, ensure_initialized, step,
      get_raw, init_csrf, finish_get, update_csrf, handle_csrf_dict,
      hchk1, herr1, hidx, hm1, hm2, hchk2, herr2, ret, throwE, APICALL_ERRCAT_CSRF]

/-- A POST whose first response body carries a csrf_error vendor object
(raised even before the authorized predicate is consulted, but after the
body's csrf pair was adopted), against a script serving the login page
and a final response: the call is retried once after the lock-free csrf
refresh, the retried POST carries the freshly fetched pair, no logout
and no re-login happen, and the outcome of the retried attempt is
final. -/
theorem run_post_csrf_retry (cfg : Config) (chk : HttpResponse → Option Body → Bool)
    (path : String) (c0 : Option Csrf) (pk : Option (String × String × String))
    (r1 idxR r2 : HttpResponse) (rest : List ServerResponse)
    (e1 : Option Int) (p1 t1 : String)
    (herr1 : handle_error_dict r1.text = Except.error (PyErr.api e1 (some APICALL_ERRCAT_CSRF)))
    (hidx : idxR.status = 200) (hm1 : idxR.metaParam = some p1) (hm2 : idxR.metaToken = some t1)
    (hchk2 : chk r2 r2.text = true) :
    (apiPost cfg chk path ⟨true, c0, pk, true,
        ServerResponse.ok r1 :: ServerResponse.ok idxR :: ServerResponse.ok r2 :: rest⟩).out
      = (match handle_error_dict r2.text with
         | Except.error e => Except.error e
         | Except.ok _ => Except.ok r2.text)
    ∧ (apiPost cfg chk path ⟨true, c0, pk, true,
        ServerResponse.ok r1 :: ServerResponse.ok idxR :: ServerResponse.ok r2 :: rest⟩).trace
      = [Event.acquireCall, Event.httpPost path c0 PostData.apiData, Event.releaseCall,
         Event.httpGet ("html/index.html#/login"),
         Event.acquireCall, Event.httpPost path (some ⟨p1, t1⟩) PostData.apiData,
         Event.releaseCall] := by
  rcases herr2 : handle_error_dict r2.text with e2 | u2 <;>
  · unfold apiPost retry_on_csrf_error
    simp only [lock_call, post_inner, ensure_initialized, step, post_raw, init_csrf,
      update_csrf, handle_csrf_dict, finish_get, herr1, hidx, hm1, hm2, hchk2, herr2,
      ret, throwE, get_raw, ite_true, ite_false, List.cons_append, List.nil_append,
      ne_eq, decide_True, decide_False, Bool.true_eq_false, Bool.false_eq_true,
      not_true, not_false_iff, String.reduceEq, Option.some.injEq, reduceCtorEq]
    trivial

/-- A GET whose first response the predicate rejects, against a script
that then serves one logout response, a full successful login handshake
and an accepted, error-free final response: exactly one logout POST, one
full re-login inside the auth lock, a single repeat of the GET, and
success with the retried body. -/
theorem run_get_unauth_ok (cfg : Config) (chk : HttpResponse → Option Body → Bool)
    (path : String) (c0 : Option Csrf) (pk : Option (String × String × String))
    (r1 : HttpResponse) (sL : ServerResponse) (idxR nonceR proofR r2 : HttpResponse)
    (rest : List ServerResponse) (p1 t1 : String) (nb : Body)
    (p2 t2 sn sa : String) (it : Nat) (cp : String)
    (hchk1 : chk r1 r1.text = false)
    (hidx : idxR.status = 200) (hm1 : idxR.metaParam = some p1) (hm2 : idxR.metaToken = some t1)
    (hns : nonceR.status = 200) (hnt : nonceR.text = some nb)
    (herrN : handle_error_dict (some nb) = Except.ok ())
    (hnbp : nb.csrf_param = some p2) (hnbt : nb.csrf_token = some t2)
    (hsn : nb.servernonce = some sn) (hit : nb.iterations = some it) (hsa : nb.salt = some sa)
    (hcp : get_client_proof cfg.password sa it cfg.firstNonce sn = some cp)
    (hps : proofR.status = 200)
    (herrP : handle_error_dict proofR.text = Except.ok ())
    (hchk2 : chk r2 r2.text = true)
    (herr2 : handle_error_dict r2.text = Except.ok ()) :
    (apiGet cfg chk path ⟨true, c0, pk, true,
        ServerResponse.ok r1 :: sL :: ServerResponse.ok idxR :: ServerResponse.ok nonceR
          :: ServerResponse.ok proofR :: ServerResponse.ok r2 :: rest⟩).out
      = Except.ok r2.text
    ∧ (apiGet cfg chk path ⟨true, c0, pk, true,
        ServerResponse.ok r1 :: sL :: ServerResponse.ok idxR :: ServerResponse.ok nonceR
          :: ServerResponse.ok proofR :: ServerResponse.ok r2 :: rest⟩).trace
      = [Event.acquireCall, Event.httpGet path,
         Event.httpPost ("api/system/user_logout") c0 PostData.logoutData,
         Event.acquireAuth, Event.httpGet ("html/index.html#/login"),
         Event.httpPost ("api/system/user_login_nonce") (some ⟨p1, t1⟩)
           (PostData.loginNonce cfg.user cfg.firstNonce),
         Event.httpPost ("api/system/user_login_proof") (some ⟨p2, t2⟩)
           (PostData.loginProof cp sn),
         Event.releaseAuth, Event.httpGet path, Event.releaseCall] := by
  obtain ⟨c1, hlog⟩ := try_logout_consume c0 pk true sL
    (ServerResponse.ok idxR :: ServerResponse.ok nonceR :: ServerResponse.ok proofR
      :: ServerResponse.ok r2 :: rest)
  have hauth := authenticate_success cfg c1 pk true idxR nonceR proofR
    (ServerResponse.ok r2 :: rest) p1 t1 nb p2 t2 sn sa it cp
    hidx hm1 hm2 hns hnt herrN hnbp hnbt hsn hit hsa hcp hps herrP
  unfold apiGet retry_on_csrf_error
  simp only [lock_call, get_inner, ensure_initialized, step, get_raw, init_csrf, finish_get,
    update_csrf, handle_csrf_dict, handle_public_key_dict,
    hchk1, hlog, hauth, hchk2, herr2, ret, throwE, ite_true, ite_false,
    List.cons_append, List.nil_append, ne_eq, decide_True, decide_False,
    Bool.true_eq_false, Bool.false_eq_true, not_true, not_false_iff,
    String.reduceEq, Option.some.injEq, reduceCtorEq]
  trivial

/-- A GET whose first response the predicate rejects, against a script
whose retried response the predicate rejects as well (after the logout
and the full successful re-login): the call fails with ApiCallError code
-2, category unauthorized, after exactly two GET attempts at the target
path. -/
theorem run_get_unauth_fail (cfg : Config) (chk : HttpResponse → Option Body → Bool)
    (path : String) (c0 : Option Csrf) (pk : Option (String × String × String))
    (r1 : HttpResponse) (sL : ServerResponse) (idxR nonceR proofR r2 : HttpResponse)
    (rest : List ServerResponse) (p1 t1 : String) (nb : Body)
    (p2 t2 sn sa : String) (it : Nat) (cp : String)
    (hchk1 : chk r1 r1.text = false)
    (hidx : idxR.status = 200) (hm1 : idxR.metaParam = some p1) (hm2 : idxR.metaToken = some t1)
    (hns : nonceR.status = 200) (hnt : nonceR.text = some nb)
    (herrN : handle_error_dict (some nb) = Except.ok ())
    (hnbp : nb.csrf_param = some p2) (hnbt : nb.csrf_token = some t2)
    (hsn : nb.servernonce = some sn) (hit : nb.iterations = some it) (hsa : nb.salt = some sa)
    (hcp : get_client_proof cfg.password sa it cfg.firstNonce sn = some cp)
    (hps : proofR.status = 200)
    (herrP : handle_error_dict proofR.text = Except.ok ())
    (hchk2 : chk r2 r2.text = false) :
    (apiGet cfg chk path ⟨true, c0, pk, true,
        ServerResponse.ok r1 :: sL :: ServerResponse.ok idxR :: ServerResponse.ok nonceR
          :: ServerResponse.ok proofR :: ServerResponse.ok r2 :: rest⟩).out
      = Except.error (PyErr.api (some APICALL_ERRCODE_UNAUTHORIZED)
          (some APICALL_ERRCAT_UNAUTHORIZED))
    ∧ (apiGet cfg chk path ⟨true, c0, pk, true,
        ServerResponse.ok r1 :: sL :: ServerResponse.ok idxR :: ServerResponse.ok nonceR
          :: ServerResponse.ok proofR :: ServerResponse.ok r2 :: rest⟩).trace
      = [Event.acquireCall, Event.httpGet path,
         Event.httpPost ("api/system/user_logout") c0 PostData.logoutData,
         Event.acquireAuth, Event.httpGet ("html/index.html#/login"),
         Event.httpPost ("api/system/user_login_nonce") (some ⟨p1, t1⟩)
           (PostData.loginNonce cfg.user cfg.firstNonce),
         Event.httpPost ("api/system/user_login_proof") (some ⟨p2, t2⟩)
           (PostData.loginProof cp sn),
         Event.releaseAuth, Event.httpGet path, Event.releaseCall] := by
  obtain ⟨c1, hlog⟩ := try_logout_consume c0 pk true sL
    (ServerResponse.ok idxR :: ServerResponse.ok nonceR :: ServerResponse.ok proofR
      :: ServerResponse.ok r2 :: rest)
  have hauth := authenticate_success cfg c1 pk true idxR nonceR proofR
    (ServerResponse.ok r2 :: rest) p1 t1 nb p2 t2 sn sa it cp
    hidx hm1 hm2 hns hnt herrN hnbp hnbt hsn hit hsa hcp hps herrP
  unfold apiGet retry_on_csrf_error
  simp only [lock_call, get_inner, ensure_initialized, step, get_raw, init_csrf, finish_get,
    update_csrf, handle_csrf_dict, handle_public_key_dict,
    hchk1, hlog, hauth, hchk2, ret, throwE, ite_true, ite_false,
    List.cons_append, List.nil_append, ne_eq, decide_True, decide_False,
    Bool.true_eq_false, Bool.false_eq_true, not_true, not_false_iff,
    String.reduceEq, Option.some.injEq, reduceCtorEq,
    APICALL_ERRCODE_UNAUTHORIZED, APICALL_ERRCAT_UNAUTHORIZED, APICALL_ERRCAT_CSRF]
  trivial

/-- A POST whose first response carries no vendor error but is rejected
by the predicate, against a script with one logout response, a full
successful login handshake and an accepted, error-free final response:
one logout POST (carrying the pair adopted from the rejected body), one
full re-login, a single repeat of the POST carrying the post-login pair,
and success with the retried body. -/
theorem run_post_unauth_ok (cfg : Config) (chk : HttpResponse → Option Body → Bool)
    (path : String) (c0 : Option Csrf) (pk : Option (String × String × String))
    (r1 : HttpResponse) (sL : ServerResponse) (idxR nonceR proofR r2 : HttpResponse)
    (rest : List ServerResponse) (p1 t1 : String) (nb : Body)
    (p2 t2 sn sa : String) (it : Nat) (cp : String)
    (herr1 : handle_error_dict r1.text = Except.ok ())
    (hchk1 : chk r1 r1.text = false)
    (hidx : idxR.status = 200) (hm1 : idxR.metaParam = some p1) (hm2 : idxR.metaToken = some t1)
    (hns : nonceR.status = 200) (hnt : nonceR.text = some nb)
    (herrN : handle_error_dict (some nb) = Except.ok ())
    (hnbp : nb.csrf_param = some p2) (hnbt : nb.csrf_token = some t2)
    (hsn : nb.servernonce = some sn) (hit : nb.iterations = some it) (hsa : nb.salt = some sa)
    (hcp : get_client_proof cfg.password sa it cfg.firstNonce sn = some cp)
    (hps : proofR.status = 200)
    (herrP : handle_error_dict proofR.text = Except.ok ())
    (hchk2 : chk r2 r2.text = true)
    (herr2 : handle_error_dict r2.text = Except.ok ()) :
    (apiPost cfg chk path ⟨true, c0, pk, true,
        ServerResponse.ok r1 :: sL :: ServerResponse.ok idxR :: ServerResponse.ok nonceR
          :: ServerResponse.ok proofR :: ServerResponse.ok r2 :: rest⟩).out
      = Except.ok r2.text
    ∧ (apiPost cfg chk path ⟨true, c0, pk, true,
        ServerResponse.ok r1 :: sL :: ServerResponse.ok idxR :: ServerResponse.ok nonceR
          :: ServerResponse.ok proofR :: ServerResponse.ok r2 :: rest⟩).trace
      = [Event.acquireCall, Event.httpPost path c0 PostData.apiData,
         Event.httpPost ("api/system/user_logout") (adopted_csrf r1.text c0) PostData.logoutData,
         Event.acquireAuth, Event.httpGet ("html/index.html#/login"),
         Event.httpPost ("api/system/user_login_nonce") (some ⟨p1, t1⟩)
           (PostData.loginNonce cfg.user cfg.firstNonce),
         Event.httpPost ("api/system/user_login_proof") (some ⟨p2, t2⟩)
           (PostData.loginProof cp sn),
         Event.releaseAuth,
         Event.httpPost path (adopted_csrf proofR.text (some ⟨p2, t2⟩)) PostData.apiData,
         Event.releaseCall] := by
  obtain ⟨c1, hlog⟩ := try_logout_consume (adopted_csrf r1.text c0) pk true sL
    (ServerResponse.ok idxR :: ServerResponse.ok nonceR :: ServerResponse.ok proofR
      :: ServerResponse.ok r2 :: rest)
  have hauth := authenticate_success cfg c1 pk true idxR nonceR proofR
    (ServerResponse.ok r2 :: rest) p1 t1 nb p2 t2 sn sa it cp
    hidx hm1 hm2 hns hnt herrN hnbp hnbt hsn hit hsa hcp hps herrP
  unfold apiPost retry_on_csrf_error
  simp only [lock_call, post_inner, ensure_initialized, step, get_raw, post_raw, init_csrf,
    update_csrf, handle_csrf_dict, handle_public_key_dict,
    herr1, hchk1, hlog, hauth, hchk2, herr2, ret, throwE, ite_true, ite_false,
    List.cons_append, List.nil_append, ne_eq, decide_True, decide_False,
    Bool.true_eq_false, Bool.false_eq_true, not_true, not_false_iff,
    String.reduceEq, Option.some.injEq, reduceCtorEq]
  trivial

/-- A POST whose first response carries no vendor error but is rejected
by the predicate, whose retried attempt (after logout and a full
successful re-login) is rejected as well: the call fails with
ApiCallError code -2, category unauthorized, after exactly two POST
attempts at the target path. -/
theorem run_post_unauth_fail (cfg : Config) (chk : HttpResponse → Option Body → Bool)
    (path : String) (c0 : Option Csrf) (pk : Option (String × String × String))
    (r1 : HttpResponse) (sL : ServerResponse) (idxR nonceR proofR r2 : HttpResponse)
    (rest : List ServerResponse) (p1 t1 : String) (nb : Body)
    (p2 t2 sn sa : String) (it : Nat) (cp : String)
    (herr1 : handle_error_dict r1.text = Except.ok ())
    (hchk1 : chk r1 r1.text = false)
    (hidx : idxR.status = 200) (hm1 : idxR.metaParam = some p1) (hm2 : idxR.metaToken = some t1)
    (hns : nonceR.status = 200) (hnt : nonceR.text = some nb)
    (herrN : handle_error_dict (some nb) = Except.ok ())
    (hnbp : nb.csrf_param = some p2) (hnbt : nb.csrf_token = some t2)
    (hsn : nb.servernonce = some sn) (hit : nb.iterations = some it) (hsa : nb.salt = some sa)
    (hcp : get_client_proof cfg.password sa it cfg.firstNonce sn = some cp)
    (hps : proofR.status = 200)
    (herrP : handle_error_dict proofR.text = Except.ok ())
    (hchk2 : chk r2 r2.text = false) :
    (apiPost cfg chk path ⟨true, c0, pk, true,
        ServerResponse.ok r1 :: sL :: ServerResponse.ok idxR :: ServerResponse.ok nonceR
          :: ServerResponse.ok proofR :: ServerResponse.ok r2 :: rest⟩).out
      = Except.error (PyErr.api (some APICALL_ERRCODE_UNAUTHORIZED)
          (some APICALL_ERRCAT_UNAUTHORIZED))
    ∧ (apiPost cfg chk path ⟨true, c0, pk, true,
        ServerResponse.ok r1 :: sL :: ServerResponse.ok idxR :: ServerResponse.ok nonceR
          :: ServerResponse.ok proofR :: ServerResponse.ok r2 :: rest⟩).trace
      = [Event.acquireCall, Event.httpPost path c0 PostData.apiData,
         Event.httpPost ("api/system/user_logout") (adopted_csrf r1.text c0) PostData.logoutData,
         Event.acquireAuth, Event.httpGet ("html/index.html#/login"),
         Event.httpPost ("api/system/user_login_nonce") (some ⟨p1, t1⟩)
           (PostData.loginNonce cfg.user cfg.firstNonce),
         Event.httpPost ("api/system/user_login_proof") (some ⟨p2, t2⟩)
           (PostData.loginProof cp sn),
         Event.releaseAuth,
         Event.httpPost path (adopted_csrf proofR.text (some ⟨p2, t2⟩)) PostData.apiData,
         Event.releaseCall] := by
  obtain ⟨c1, hlog⟩ := try_logout_consume (adopted_csrf r1.text c0) pk true sL
    (ServerResponse.ok idxR :: ServerResponse.ok nonceR :: ServerResponse.ok proofR
      :: ServerResponse.ok r2 :: rest)
  have hauth := authenticate_success cfg c1 pk true idxR nonceR proofR
    (ServerResponse.ok r2 :: rest) p1 t1 nb p2 t2 sn sa it cp
    hidx hm1 hm2 hns hnt herrN hnbp hnbt hsn hit hsa hcp hps herrP
  unfold apiPost retry_on_csrf_error
  simp only [lock_call, post_inner, ensure_initialized, step, get_raw, post_raw, init_csrf,
    update_csrf, handle_csrf_dict, handle_public_key_dict,
    herr1, hchk1, hlog, hauth, hchk2, ret, throwE, ite_true, ite_false,
    List.cons_append, List.nil_append, ne_eq, decide_True, decide_False,
    Bool.true_eq_false, Bool.false_eq_true, not_true, not_false_iff,
    String.reduceEq, Option.some.injEq, reduceCtorEq,
    APICALL_ERRCODE_UNAUTHORIZED, APICALL_ERRCAT_UNAUTHORIZED, APICALL_ERRCAT_CSRF]
  trivial

/-- Final-state version of the rejected-retry POST run: the call fails
with code -2 and the active csrf pair is the one adopted during the
re-login (from the proof response, else the nonce-body pair), NOT a pair
carried by the rejected retried body, which is discarded. -/
theorem run_post_unauth_fail_state (cfg : Config) (chk : HttpResponse → Option Body → Bool)
    (path : String) (c0 : Option Csrf) (pk : Option (String × String × String))
    (r1 : HttpResponse) (sL : ServerResponse) (idxR nonceR proofR r2 : HttpResponse)
    (rest : List ServerResponse) (p1 t1 : String) (nb : Body)
    (p2 t2 sn sa : String) (it : Nat) (cp : String)
    (herr1 : handle_error_dict r1.text = Except.ok ())
    (hchk1 : chk r1 r1.text = false)
    (hidx : idxR.status = 200) (hm1 : idxR.metaParam = some p1) (hm2 : idxR.metaToken = some t1)
    (hns : nonceR.status = 200) (hnt : nonceR.text = some nb)
    (herrN : handle_error_dict (some nb) = Except.ok ())
    (hnbp : nb.csrf_param = some p2) (hnbt : nb.csrf_token = some t2)
    (hsn : nb.servernonce = some sn) (hit : nb.iterations = some it) (hsa : nb.salt = some sa)
    (hcp : get_client_proof cfg.password sa it cfg.firstNonce sn = some cp)
    (hps : proofR.status = 200)
    (herrP : handle_error_dict proofR.text = Except.ok ())
    (hchk2 : chk r2 r2.text = false) :
    (apiPost cfg chk path ⟨true, c0, pk, true,
        ServerResponse.ok r1 :: sL :: ServerResponse.ok idxR :: ServerResponse.ok nonceR
          :: ServerResponse.ok proofR :: ServerResponse.ok r2 :: rest⟩).out
      = Except.error (PyErr.api (some APICALL_ERRCODE_UNAUTHORIZED)
          (some APICALL_ERRCAT_UNAUTHORIZED))
    ∧ (apiPost cfg chk path ⟨true, c0, pk, true,
        ServerResponse.ok r1 :: sL :: ServerResponse.ok idxR :: ServerResponse.ok nonceR
          :: ServerResponse.ok proofR :: ServerResponse.ok r2 :: rest⟩).st.active_csrf
      = adopted_csrf proofR.text (some ⟨p2, t2⟩) := by
  obtain ⟨c1, hlog⟩ := try_logout_consume (adopted_csrf r1.text c0) pk true sL
    (ServerResponse.ok idxR :: ServerResponse.ok nonceR :: ServerResponse.ok proofR
      :: ServerResponse.ok r2 :: rest)
  have hauth := authenticate_success cfg c1 pk true idxR nonceR proofR
    (ServerResponse.ok r2 :: rest) p1 t1 nb p2 t2 sn sa it cp
    hidx hm1 hm2 hns hnt herrN hnbp hnbt hsn hit hsa hcp hps herrP
  constructor <;>
  · unfold apiPost retry_on_csrf_error
    simp only [lock_call, post_inner, ensure_initialized, step, get_raw, post_raw, init_csrf,
      update_csrf, handle_csrf_dict, handle_public_key_dict,
      herr1, hchk1, hlog, hauth, hchk2, ret, throwE, ite_true, ite_false,
      List.cons_append, List.nil_append, ne_eq, decide_True, decide_False,
      Bool.true_eq_false, Bool.false_eq_true, not_true, not_false_iff,
      String.reduceEq, Option.some.injEq, reduceCtorEq,
      APICALL_ERRCODE_UNAUTHORIZED, APICALL_ERRCAT_UNAUTHORIZED, APICALL_ERRCAT_CSRF]
    try trivial

/-- A POST whose first response is error-free but rejected, and whose
retried response (after logout and a full re-login) is ACCEPTED by the
predicate but carries both a csrf pair and a non-csrf vendor error: the
retried body's pair is adopted first and the vendor error is then raised
— predicate, then csrf adoption, then error raise, on the retried
response. -/
theorem run_post_retried_vendor (cfg : Config) (chk : HttpResponse → Option Body → Bool)
    (path : String) (c0 : Option Csrf) (pk : Option (String × String × String))
    (r1 : HttpResponse) (sL : ServerResponse) (idxR nonceR proofR r2 : HttpResponse)
    (rest : List ServerResponse) (p1 t1 : String) (nb b2 : Body)
    (p2 t2 sn sa pD tD : String) (it : Nat) (cp : String) (e2 : Option Int) (cat2 : String)
    (herr1 : handle_error_dict r1.text = Except.ok ())
    (hchk1 : chk r1 r1.text = false)
    (hidx : idxR.status = 200) (hm1 : idxR.metaParam = some p1) (hm2 : idxR.metaToken = some t1)
    (hns : nonceR.status = 200) (hnt : nonceR.text = some nb)
    (herrN : handle_error_dict (some nb) = Except.ok ())
    (hnbp : nb.csrf_param = some p2) (hnbt : nb.csrf_token = some t2)
    (hsn : nb.servernonce = some sn) (hit : nb.iterations = some it) (hsa : nb.salt = some sa)
    (hcp : get_client_proof cfg.password sa it cfg.firstNonce sn = some cp)
    (hps : proofR.status = 200)
    (herrP : handle_error_dict proofR.text = Except.ok ())
    (hchk2 : chk r2 r2.text = true)
    (htext2 : r2.text = some b2)
    (hb2p : b2.csrf_param = some pD) (hb2t : b2.csrf_token = some tD)
    (herr2 : handle_error_dict (some b2) = Except.error (PyErr.api e2 (some cat2)))
    (hcat2 : cat2 ≠ APICALL_ERRCAT_CSRF) :
    (apiPost cfg chk path ⟨true, c0, pk, true,
        ServerResponse.ok r1 :: sL :: ServerResponse.ok idxR :: ServerResponse.ok nonceR
          :: ServerResponse.ok proofR :: ServerResponse.ok r2 :: rest⟩).out
      = Except.error (PyErr.api e2 (some cat2))
    ∧ (apiPost cfg chk path ⟨true, c0, pk, true,
        ServerResponse.ok r1 :: sL :: ServerResponse.ok idxR :: ServerResponse.ok nonceR
          :: ServerResponse.ok proofR :: ServerResponse.ok r2 :: rest⟩).st.active_csrf
      = some ⟨pD, tD⟩ := by
  obtain ⟨c1, hlog⟩ := try_logout_consume (adopted_csrf r1.text c0) pk true sL
    (ServerResponse.ok idxR :: ServerResponse.ok nonceR :: ServerResponse.ok proofR
      :: ServerResponse.ok r2 :: rest)
  have hauth := authenticate_success cfg c1 pk true idxR nonceR proofR
    (ServerResponse.ok r2 :: rest) p1 t1 nb p2 t2 sn sa it cp
    hidx hm1 hm2 hns hnt herrN hnbp hnbt hsn hit hsa hcp hps herrP
  rw [htext2] at hchk2
  simp only [APICALL_ERRCAT_CSRF] at hcat2
  have hcsrf2 : adopted_csrf (some b2) (adopted_csrf proofR.text (some ⟨p2, t2⟩))
      = some ⟨pD, tD⟩ := by
    simp [adopted_csrf, csrf_of, hb2p, hb2t]
  constructor <;>
  · unfold apiPost retry_on_csrf_error
    simp only [lock_call, post_inner, ensure_initialized, step, get_raw, post_raw, init_csrf,
      update_csrf, handle_csrf_dict, handle_public_key_dict,
      herr1, hchk1, hlog, hauth, htext2, hb2p, hb2t, herr2, hcat2, hchk2, hcsrf2,
      ret, throwE, ite_true, ite_false,
      List.cons_append, List.nil_append, ne_eq, decide_True, decide_False,
      Bool.true_eq_false, Bool.false_eq_true, not_true, not_false_iff,
      String.reduceEq, Option.some.injEq, reduceCtorEq, APICALL_ERRCAT_CSRF]
    try trivial

/-! Event counting helpers. -/

/-- Recognize a GET request at the given path. -/
def isTargetGet (path : String) (e : Event) : Bool :=
  match e with
  | Event.httpGet q => q == path
  | _ => false

/-- Recognize an application POST request at the given path. -/
def isTargetPost (path : String) (e : Event) : Bool :=
  match e with
  | Event.httpPost q _ PostData.apiData => q == path
  | _ => false

/-- Recognize the best-effort logout POST. -/
def isLogoutPost (e : Event) : Bool :=
  match e with
  | Event.httpPost q _ PostData.logoutData => q == "api/system/user_logout"
  | _ => false

/-- Recognize the start of a full re-login (auth lock acquisition). -/
def isAuthStart (e : Event) : Bool :=
  match e with
  | Event.acquireAuth => true
  | _ => false

/-! Claim C3: the unauthorized retry policy. -/

/-- C3 amended: for Get, when the predicate rejects the first response
(whose body is discarded without vendor-error inspection), and for Post,
when additionally the first response's body carries no vendor error
object, the executor runs one best-effort logout, one full re-login, and
repeats the request exactly once: with an accepted, error-free retried
response the call returns its body after exactly two attempts at the
target path, one re-login and one logout; with a rejected retried
response it fails with ApiCallError code -2, category unauthorized,
after exactly two attempts.  For Post the extra condition is essential:
a non-csrf vendor-error body in the first response — even one the
predicate rejects — raises that vendor ApiCallError after a single HTTP
attempt, with no logout, no re-login and no repeat. -/
theorem claim3_unauthorized_retry
    (cfg : Config) (chk : HttpResponse → Option Body → Bool) (path : String)
    (c0 : Option Csrf) (pk : Option (String × String × String))
    (r1 : HttpResponse) (sL : ServerResponse) (idxR nonceR proofR r2ok r2bad : HttpResponse)
    (rest : List ServerResponse) (p1 t1 : String) (nb : Body)
    (p2 t2 sn sa : String) (it : Nat) (cp : String)
    (hpath : path ≠ "html/index.html#/login")
    (herr1 : handle_error_dict r1.text = Except.ok ())
    (hchk1 : chk r1 r1.text = false)
    (hidx : idxR.status = 200) (hm1 : idxR.metaParam = some p1) (hm2 : idxR.metaToken = some t1)
    (hns : nonceR.status = 200) (hnt : nonceR.text = some nb)
    (herrN : handle_error_dict (some nb) = Except.ok ())
    (hnbp : nb.csrf_param = some p2) (hnbt : nb.csrf_token = some t2)
    (hsn : nb.servernonce = some sn) (hit : nb.iterations = some it) (hsa : nb.salt = some sa)
    (hcp : get_client_proof cfg.password sa it cfg.firstNonce sn = some cp)
    (hps : proofR.status = 200)
    (herrP : handle_error_dict proofR.text = Except.ok ())
    (hchk2 : chk r2ok r2ok.text = true)
    (herr2 : handle_error_dict r2ok.text = Except.ok ())
    (hbad : chk r2bad r2bad.text = false)
    (r1v : HttpResponse) (restV : List ServerResponse) (ev : Option Int) (catv : String)
    (herrV : handle_error_dict r1v.text = Except.error (PyErr.api ev (some catv)))
    (hcatv : catv ≠ APICALL_ERRCAT_CSRF)
    (hchkV : chk r1v r1v.text = false) :
    ((apiGet cfg chk path ⟨true, c0, pk, true,
        ServerResponse.ok r1 :: sL :: ServerResponse.ok idxR :: ServerResponse.ok nonceR
          :: ServerResponse.ok proofR :: ServerResponse.ok r2ok :: rest⟩).out
        = Except.ok r2ok.text
      ∧ List.countP (isTargetGet path) (apiGet cfg chk path ⟨true, c0, pk, true,
          ServerResponse.ok r1 :: sL :: ServerResponse.ok idxR :: ServerResponse.ok nonceR
            :: ServerResponse.ok proofR :: ServerResponse.ok r2ok :: rest⟩).trace = 2
      ∧ List.countP isAuthStart (apiGet cfg chk path ⟨true, c0, pk, true,
          ServerResponse.ok r1 :: sL :: ServerResponse.ok idxR :: ServerResponse.ok nonceR
            :: ServerResponse.ok proofR :: ServerResponse.ok r2ok :: rest⟩).trace = 1
      ∧ List.countP isLogoutPost (apiGet cfg chk path ⟨true, c0, pk, true,
          ServerResponse.ok r1 :: sL :: ServerResponse.ok idxR :: ServerResponse.ok nonceR
            :: ServerResponse.ok proofR :: ServerResponse.ok r2ok :: rest⟩).trace = 1)
    ∧ ((apiGet cfg chk path ⟨true, c0, pk, true,
        ServerResponse.ok r1 :: sL :: ServerResponse.ok idxR :: ServerResponse.ok nonceR
          :: ServerResponse.ok proofR :: ServerResponse.ok r2bad :: rest⟩).out
        = Except.error (PyErr.api (some APICALL_ERRCODE_UNAUTHORIZED)
            (some APICALL_ERRCAT_UNAUTHORIZED))
      ∧ List.countP (isTargetGet path) (apiGet cfg chk path ⟨true, c0, pk, true,
          ServerResponse.ok r1 :: sL :: ServerResponse.ok idxR :: ServerResponse.ok nonceR
            :: ServerResponse.ok proofR :: ServerResponse.ok r2bad :: rest⟩).trace = 2)
    ∧ ((apiPost cfg chk path ⟨true, c0, pk, true,
        ServerResponse.ok r1 :: sL :: ServerResponse.ok idxR :: ServerResponse.ok nonceR
          :: ServerResponse.ok proofR :: ServerResponse.ok r2ok :: rest⟩).out
        = Except.ok r2ok.text
      ∧ List.countP (isTargetPost path) (apiPost cfg chk path ⟨true, c0, pk, true,
          ServerResponse.ok r1 :: sL :: ServerResponse.ok idxR :: ServerResponse.ok nonceR
            :: ServerResponse.ok proofR :: ServerResponse.ok r2ok :: rest⟩).trace = 2
      ∧ List.countP isAuthStart (apiPost cfg chk path ⟨true, c0, pk, true,
          ServerResponse.ok r1 :: sL :: ServerResponse.ok idxR :: ServerResponse.ok nonceR
            :: ServerResponse.ok proofR :: ServerResponse.ok r2ok :: rest⟩).trace = 1
      ∧ List.countP isLogoutPost (apiPost cfg chk path ⟨true, c0, pk, true,
          ServerResponse.ok r1 :: sL :: ServerResponse.ok idxR :: ServerResponse.ok nonceR
            :: ServerResponse.ok proofR :: ServerResponse.ok r2ok :: rest⟩).trace = 1)
    ∧ ((apiPost cfg chk path ⟨true, c0, pk, true,
        ServerResponse.ok r1 :: sL :: ServerResponse.ok idxR :: ServerResponse.ok nonceR
          :: ServerResponse.ok proofR :: ServerResponse.ok r2bad :: rest⟩).out
        = Except.error (PyErr.api (some APICALL_ERRCODE_UNAUTHORIZED)
            (some APICALL_ERRCAT_UNAUTHORIZED))
      ∧ List.countP (isTargetPost path) (apiPost cfg chk path ⟨true, c0, pk, true,
          ServerResponse.ok r1 :: sL :: ServerResponse.ok idxR :: ServerResponse.ok nonceR
            :: ServerResponse.ok proofR :: ServerResponse.ok r2bad :: rest⟩).trace = 2)
    ∧ ((apiPost cfg chk path ⟨true, c0, pk, true, ServerResponse.ok r1v :: restV⟩).out
        = Except.error (PyErr.api ev (some catv))
      ∧ (apiPost cfg chk path ⟨true, c0, pk, true, ServerResponse.ok r1v :: restV⟩).trace
        = [Event.acquireCall, Event.httpPost path c0 PostData.apiData, Event.releaseCall]
      ∧ List.countP (isTargetPost path) (apiPost cfg chk path ⟨true, c0, pk, true,
          ServerResponse.ok r1v :: restV⟩).trace = 1
      ∧ List.countP isAuthStart (apiPost cfg chk path ⟨true, c0, pk, true,
          ServerResponse.ok r1v :: restV⟩).trace = 0
      ∧ List.countP isLogoutPost (apiPost cfg chk path ⟨true, c0, pk, true,
          ServerResponse.ok r1v :: restV⟩).trace = 0) := by
  simp only [APICALL_ERRCAT_CSRF] at hcatv
  have h5 : (apiPost cfg chk path ⟨true, c0, pk, true, ServerResponse.ok r1v :: restV⟩).out
        = Except.error (PyErr.api ev (some catv))
      ∧ (apiPost cfg chk path ⟨true, c0, pk, true, ServerResponse.ok r1v :: restV⟩).trace
        = [Event.acquireCall, Event.httpPost path c0 PostData.apiData, Event.releaseCall] := by
    constructor <;>
      simp [apiPost, retry_on_csrf_error, lock_call, post_inner, ensure_initialized, step,
        post_raw, handle_csrf_dict, herrV, hcatv, ret, throwE, APICALL_ERRCAT_CSRF]
  obtain ⟨ho1, ht1⟩ := run_get_unauth_ok cfg chk path c0 pk r1 sL idxR nonceR proofR r2ok rest
    p1 t1 nb p2 t2 sn sa it cp hchk1 hidx hm1 hm2 hns hnt herrN hnbp hnbt hsn hit hsa hcp
    hps herrP hchk2 herr2
  obtain ⟨ho2, ht2⟩ := run_get_unauth_fail cfg chk path c0 pk r1 sL idxR nonceR proofR r2bad rest
    p1 t1 nb p2 t2 sn sa it cp hchk1 hidx hm1 hm2 hns hnt herrN hnbp hnbt hsn hit hsa hcp
    hps herrP hbad
  obtain ⟨ho3, ht3⟩ := run_post_unauth_ok cfg chk path c0 pk r1 sL idxR nonceR proofR r2ok rest
    p1 t1 nb p2 t2 sn sa it cp herr1 hchk1 hidx hm1 hm2 hns hnt herrN hnbp hnbt hsn hit hsa hcp
    hps herrP hchk2 herr2
  obtain ⟨ho4, ht4⟩ := run_post_unauth_fail cfg chk path c0 pk r1 sL idxR nonceR proofR r2bad rest
    p1 t1 nb p2 t2 sn sa it cp herr1 hchk1 hidx hm1 hm2 hns hnt herrN hnbp hnbt hsn hit hsa hcp
    hps herrP hbad
  refine ⟨⟨ho1, ?_, ?_, ?_⟩, ⟨ho2, ?_⟩, ⟨ho3, ?_, ?_, ?_⟩, ⟨ho4, ?_⟩,
      ⟨h5.1, h5.2, ?_, ?_, ?_⟩⟩ <;>
    first
      | (rw [ht1]; simp [List.countP_cons, isTargetGet, isTargetPost, isLogoutPost, isAuthStart,
          hpath, Ne.symm hpath])
      | (rw [ht2]; simp [List.countP_cons, isTargetGet, isTargetPost, isLogoutPost, isAuthStart,
          hpath, Ne.symm hpath])
      | (rw [ht3]; simp [List.countP_cons, isTargetGet, isTargetPost, isLogoutPost, isAuthStart,
          hpath, Ne.symm hpath])
      | (rw [ht4]; simp [List.countP_cons, isTargetGet, isTargetPost, isLogoutPost, isAuthStart,
          hpath, Ne.symm hpath])
      | (rw [h5.2]; simp [List.countP_cons, isTargetGet, isTargetPost, isLogoutPost, isAuthStart,
          hpath, Ne.symm hpath])

/-- C3 counterexample: a GET whose first response is a 404 is retried
after logout and a full successful re-login; the retried response has
status 200, so the default predicate accepts it, yet the call does not
succeed: its body carries a vendor error object and the call raises that
vendor ApiCallError (code 5) instead, refuting the claim that a
predicate-accepted retried response makes the call succeed. -/
theorem claim3_counterexample :
    check_authorized { status := 200, text := some { err := some 5, errorCategory := some ("config") } }
      (some { err := some 5, errorCategory := some ("config") }) = true
    ∧ (apiGet ⟨"admin", "pw", "aaaa"⟩ check_authorized ("p")
        ⟨true, some ⟨"p0", "t0"⟩, none, true,
          [ServerResponse.ok { status := 404 },
           ServerResponse.ok { status := 200 },
           ServerResponse.ok { status := 200, metaParam := some ("p1"), metaToken := some ("t1") },
           ServerResponse.ok { status := 200, text := some { csrf_param := some ("p2"), csrf_token := some ("t2"), servernonce := some ("bbbb"), salt := some ("00ff"), iterations := some 1 } },
           ServerResponse.ok { status := 200 },
           ServerResponse.ok { status := 200, text := some { err := some 5, errorCategory := some ("config") } }]⟩).out
      = Except.error (PyErr.api (some 5) (some ("config"))) := by
  constructor
  · decide
  · decide

/-- C3 witness: the amended unauthorized-retry theorem applied to a
concrete server; all hypotheses are discharged by computation, with the
concrete client proof of password pw, salt 00ff, one iteration and
nonces aaaa and bbbb. -/
theorem claim3_witness :
    ((apiGet ⟨"admin", "pw", "aaaa"⟩ check_authorized ("p")
        ⟨true, some ⟨"p0", "t0"⟩, none, true,
          ServerResponse.ok { status := 404 } :: ServerResponse.ok { status := 200 }
            :: ServerResponse.ok { status := 200, metaParam := some ("p1"), metaToken := some ("t1") }
            :: ServerResponse.ok { status := 200, text := some { csrf_param := some ("p2"), csrf_token := some ("t2"), servernonce := some ("bbbb"), salt := some ("00ff"), iterations := some 1 } }
            :: ServerResponse.ok { status := 200 }
            :: ServerResponse.ok { status := 200, text := some {} } :: []⟩).out
        = Except.ok (some {})
      ∧ List.countP (isTargetGet ("p")) (apiGet ⟨"admin", "pw", "aaaa"⟩ check_authorized ("p")
          ⟨true, some ⟨"p0", "t0"⟩, none, true,
            ServerResponse.ok { status := 404 } :: ServerResponse.ok { status := 200 }
              :: ServerResponse.ok { status := 200, metaParam := some ("p1"), metaToken := some ("t1") }
              :: ServerResponse.ok { status := 200, text := some { csrf_param := some ("p2"), csrf_token := some ("t2"), servernonce := some ("bbbb"), salt := some ("00ff"), iterations := some 1 } }
              :: ServerResponse.ok { status := 200 }
              :: ServerResponse.ok { status := 200, text := some {} } :: []⟩).trace = 2
      ∧ List.countP isAuthStart (apiGet ⟨"admin", "pw", "aaaa"⟩ check_authorized ("p")
          ⟨true, some ⟨"p0", "t0"⟩, none, true,
            ServerResponse.ok { status := 404 } :: ServerResponse.ok { status := 200 }
              :: ServerResponse.ok { status := 200, metaParam := some ("p1"), metaToken := some ("t1") }
              :: ServerResponse.ok { status := 200, text := some { csrf_param := some ("p2"), csrf_token := some ("t2"), servernonce := some ("bbbb"), salt := some ("00ff"), iterations := some 1 } }
              :: ServerResponse.ok { status := 200 }
              :: ServerResponse.ok { status := 200, text := some {} } :: []⟩).trace = 1
      ∧ List.countP isLogoutPost (apiGet ⟨"admin", "pw", "aaaa"⟩ check_authorized ("p")
          ⟨true, some ⟨"p0", "t0"⟩, none, true,
            ServerResponse.ok { status := 404 } :: ServerResponse.ok { status := 200 }
              :: ServerResponse.ok { status := 200, metaParam := some ("p1"), metaToken := some ("t1") }
              :: ServerResponse.ok { status := 200, text := some { csrf_param := some ("p2"), csrf_token := some ("t2"), servernonce := some ("bbbb"), salt := some ("00ff"), iterations := some 1 } }
              :: ServerResponse.ok { status := 200 }
              :: ServerResponse.ok { status := 200, text := some {} } :: []⟩).trace = 1)
    ∧ ((apiGet ⟨"admin", "pw", "aaaa"⟩ check_authorized ("p")
        ⟨true, some ⟨"p0", "t0"⟩, none, true,
          ServerResponse.ok { status := 404 } :: ServerResponse.ok { status := 200 }
            :: ServerResponse.ok { status := 200, metaParam := some ("p1"), metaToken := some ("t1") }
            :: ServerResponse.ok { status := 200, text := some { csrf_param := some ("p2"), csrf_token := some ("t2"), servernonce := some ("bbbb"), salt := some ("00ff"), iterations := some 1 } }
            :: ServerResponse.ok { status := 200 }
            :: ServerResponse.ok { status := 404 } :: []⟩).out
        = Except.error (PyErr.api (some APICALL_ERRCODE_UNAUTHORIZED)
            (some APICALL_ERRCAT_UNAUTHORIZED))
      ∧ List.countP (isTargetGet ("p")) (apiGet ⟨"admin", "pw", "aaaa"⟩ check_authorized ("p")
          ⟨true, some ⟨"p0", "t0"⟩, none, true,
            ServerResponse.ok { status := 404 } :: ServerResponse.ok { status := 200 }
              :: ServerResponse.ok { status := 200, metaParam := some ("p1"), metaToken := some ("t1") }
              :: ServerResponse.ok { status := 200, text := some { csrf_param := some ("p2"), csrf_token := some ("t2"), servernonce := some ("bbbb"), salt := some ("00ff"), iterations := some 1 } }
              :: ServerResponse.ok { status := 200 }
              :: ServerResponse.ok { status := 404 } :: []⟩).trace = 2)
    ∧ ((apiPost ⟨"admin", "pw", "aaaa"⟩ check_authorized ("p")
        ⟨true, some ⟨"p0", "t0"⟩, none, true,
          ServerResponse.ok { status := 404 } :: ServerResponse.ok { status := 200 }
            :: ServerResponse.ok { status := 200, metaParam := some ("p1"), metaToken := some ("t1") }
            :: ServerResponse.ok { status := 200, text := some { csrf_param := some ("p2"), csrf_token := some ("t2"), servernonce := some ("bbbb"), salt := some ("00ff"), iterations := some 1 } }
            :: ServerResponse.ok { status := 200 }
            :: ServerResponse.ok { status := 200, text := some {} } :: []⟩).out
        = Except.ok (some {})
      ∧ List.countP (isTargetPost ("p")) (apiPost ⟨"admin", "pw", "aaaa"⟩ check_authorized ("p")
          ⟨true, some ⟨"p0", "t0"⟩, none, true,
            ServerResponse.ok { status := 404 } :: ServerResponse.ok { status := 200 }
              :: ServerResponse.ok { status := 200, metaParam := some ("p1"), metaToken := some ("t1") }
              :: ServerResponse.ok { status := 200, text := some { csrf_param := some ("p2"), csrf_token := some ("t2"), servernonce := some ("bbbb"), salt := some ("00ff"), iterations := some 1 } }
              :: ServerResponse.ok { status := 200 }
              :: ServerResponse.ok { status := 200, text := some {} } :: []⟩).trace = 2
      ∧ List.countP isAuthStart (apiPost ⟨"admin", "pw", "aaaa"⟩ check_authorized ("p")
          ⟨true, some ⟨"p0", "t0"⟩, none, true,
            ServerResponse.ok { status := 404 } :: ServerResponse.ok { status := 200 }
              :: ServerResponse.ok { status := 200, metaParam := some ("p1"), metaToken := some ("t1") }
              :: ServerResponse.ok { status := 200, text := some { csrf_param := some ("p2"), csrf_token := some ("t2"), servernonce := some ("bbbb"), salt := some ("00ff"), iterations := some 1 } }
              :: ServerResponse.ok { status := 200 }
              :: ServerResponse.ok { status := 200, text := some {} } :: []⟩).trace = 1
      ∧ List.countP isLogoutPost (apiPost ⟨"admin", "pw", "aaaa"⟩ check_authorized ("p")
          ⟨true, some ⟨"p0", "t0"⟩, none, true,
            ServerResponse.ok { status := 404 } :: ServerResponse.ok { status := 200 }
              :: ServerResponse.ok { status := 200, metaParam := some ("p1"), metaToken := some ("t1") }
              :: ServerResponse.ok { status := 200, text := some { csrf_param := some ("p2"), csrf_token := some ("t2"), servernonce := some ("bbbb"), salt := some ("00ff"), iterations := some 1 } }
              :: ServerResponse.ok { status := 200 }
              :: ServerResponse.ok { status := 200, text := some {} } :: []⟩).trace = 1)
    ∧ ((apiPost ⟨"admin", "pw", "aaaa"⟩ check_authorized ("p")
        ⟨true, some ⟨"p0", "t0"⟩, none, true,
          ServerResponse.ok { status := 404 } :: ServerResponse.ok { status := 200 }
            :: ServerResponse.ok { status := 200, metaParam := some ("p1"), metaToken := some ("t1") }
            :: ServerResponse.ok { status := 200, text := some { csrf_param := some ("p2"), csrf_token := some ("t2"), servernonce := some ("bbbb"), salt := some ("00ff"), iterations := some 1 } }
            :: ServerResponse.ok { status := 200 }
            :: ServerResponse.ok { status := 404 } :: []⟩).out
        = Except.error (PyErr.api (some APICALL_ERRCODE_UNAUTHORIZED)
            (some APICALL_ERRCAT_UNAUTHORIZED))
      ∧ List.countP (isTargetPost ("p")) (apiPost ⟨"admin", "pw", "aaaa"⟩ check_authorized ("p")
          ⟨true, some ⟨"p0", "t0"⟩, none, true,
            ServerResponse.ok { status := 404 } :: ServerResponse.ok { status := 200 }
              :: ServerResponse.ok { status := 200, metaParam := some ("p1"), metaToken := some ("t1") }
              :: ServerResponse.ok { status := 200, text := some { csrf_param := some ("p2"), csrf_token := some ("t2"), servernonce := some ("bbbb"), salt := some ("00ff"), iterations := some 1 } }
              :: ServerResponse.ok { status := 200 }
              :: ServerResponse.ok { status := 404 } :: []⟩).trace = 2)
    ∧ ((apiPost ⟨"admin", "pw", "aaaa"⟩ check_authorized ("p")
        ⟨true, some ⟨"p0", "t0"⟩, none, true,
          ServerResponse.ok { status := 404, text := some { err := some 11, errorCategory := some ("cfg") } } :: []⟩).out
        = Except.error (PyErr.api (some 11) (some ("cfg")))
      ∧ (apiPost ⟨"admin", "pw", "aaaa"⟩ check_authorized ("p")
        ⟨true, some ⟨"p0", "t0"⟩, none, true,
          ServerResponse.ok { status := 404, text := some { err := some 11, errorCategory := some ("cfg") } } :: []⟩).trace
        = [Event.acquireCall, Event.httpPost ("p") (some ⟨"p0", "t0"⟩) PostData.apiData,
           Event.releaseCall]
      ∧ List.countP (isTargetPost ("p")) (apiPost ⟨"admin", "pw", "aaaa"⟩ check_authorized ("p")
          ⟨true, some ⟨"p0", "t0"⟩, none, true,
            ServerResponse.ok { status := 404, text := some { err := some 11, errorCategory := some ("cfg") } } :: []⟩).trace = 1
      ∧ List.countP isAuthStart (apiPost ⟨"admin", "pw", "aaaa"⟩ check_authorized ("p")
          ⟨true, some ⟨"p0", "t0"⟩, none, true,
            ServerResponse.ok { status := 404, text := some { err := some 11, errorCategory := some ("cfg") } } :: []⟩).trace = 0
      ∧ List.countP isLogoutPost (apiPost ⟨"admin", "pw", "aaaa"⟩ check_authorized ("p")
          ⟨true, some ⟨"p0", "t0"⟩, none, true,
            ServerResponse.ok { status := 404, text := some { err := some 11, errorCategory := some ("cfg") } } :: []⟩).trace = 0) :=
  claim3_unauthorized_retry ⟨"admin", "pw", "aaaa"⟩ check_authorized ("p")
    (some ⟨"p0", "t0"⟩) none { status := 404 } (ServerResponse.ok { status := 200 })
    { status := 200, metaParam := some ("p1"), metaToken := some ("t1") }
    { status := 200, text := some { csrf_param := some ("p2"), csrf_token := some ("t2"), servernonce := some ("bbbb"), salt := some ("00ff"), iterations := some 1 } }
    { status := 200 } { status := 200, text := some {} } { status := 404 } []
    ("p1") ("t1")
    { csrf_param := some ("p2"), csrf_token := some ("t2"), servernonce := some ("bbbb"), salt := some ("00ff"), iterations := some 1 }
    ("p2") ("t2") ("bbbb") ("00ff") 1
    ("a628fa1c807df6b91f1600b92940a49aa84e54ff13b8523f5a37c8609c26f13b")
    (by decide) (by decide) (by decide) (by decide) (by decide) (by decide) (by decide)
    (by decide) (by decide) (by decide) (by decide) (by decide) (by decide)
    (by decide) (by decide) (by decide) (by decide) (by decide) (by decide) (by decide)
    { status := 404, text := some { err := some 11, errorCategory := some ("cfg") } } []
    (some 11) ("cfg") (by decide) (by decide) (by decide)

/-! Claim C4: the CSRF retry policy. -/

/-- C4: for Get and Post, an ApiCallError of category csrf_error makes
the executor refresh the CSRF pair alone, by re-fetching the login page
(exactly one extra GET there, no logout, no re-login), and retry the
whole call exactly once; with an error-free accepted second response the
call succeeds after exactly two HTTP calls to the target path, and a
csrf_error raised by the retried attempt propagates to the caller. -/
theorem claim4_csrf_retry
    (cfg : Config) (chk : HttpResponse → Option Body → Bool) (path : String)
    (c0 : Option Csrf) (pk : Option (String × String × String))
    (r1 idxR r2ok r2c : HttpResponse) (rest : List ServerResponse)
    (e1 e2 : Option Int) (p1 t1 : String)
    (hpath : path ≠ "html/index.html#/login")
    (hchk1 : chk r1 r1.text = true)
    (herr1 : handle_error_dict r1.text = Except.error (PyErr.api e1 (some APICALL_ERRCAT_CSRF)))
    (hidx : idxR.status = 200) (hm1 : idxR.metaParam = some p1) (hm2 : idxR.metaToken = some t1)
    (hchk2 : chk r2ok r2ok.text = true)
    (herr2 : handle_error_dict r2ok.text = Except.ok ())
    (hchk2c : chk r2c r2c.text = true)
    (herr2c : handle_error_dict r2c.text = Except.error (PyErr.api e2 (some APICALL_ERRCAT_CSRF))) :
    ((apiGet cfg chk path ⟨true, c0, pk, true,
        ServerResponse.ok r1 :: ServerResponse.ok idxR :: ServerResponse.ok r2ok :: rest⟩).out
        = Except.ok r2ok.text
      ∧ List.countP (isTargetGet path) (apiGet cfg chk path ⟨true, c0, pk, true,
          ServerResponse.ok r1 :: ServerResponse.ok idxR :: ServerResponse.ok r2ok :: rest⟩).trace = 2
      ∧ List.countP (isTargetGet ("html/index.html#/login")) (apiGet cfg chk path ⟨true, c0, pk, true,
          ServerResponse.ok r1 :: ServerResponse.ok idxR :: ServerResponse.ok r2ok :: rest⟩).trace = 1
      ∧ List.countP isAuthStart (apiGet cfg chk path ⟨true, c0, pk, true,
          ServerResponse.ok r1 :: ServerResponse.ok idxR :: ServerResponse.ok r2ok :: rest⟩).trace = 0
      ∧ List.countP isLogoutPost (apiGet cfg chk path ⟨true, c0, pk, true,
          ServerResponse.ok r1 :: ServerResponse.ok idxR :: ServerResponse.ok r2ok :: rest⟩).trace = 0)
    ∧ (apiGet cfg chk path ⟨true, c0, pk, true,
        ServerResponse.ok r1 :: ServerResponse.ok idxR :: ServerResponse.ok r2c :: rest⟩).out
        = Except.error (PyErr.api e2 (some APICALL_ERRCAT_CSRF))
    ∧ ((apiPost cfg chk path ⟨true, c0, pk, true,
        ServerResponse.ok r1 :: ServerResponse.ok idxR :: ServerResponse.ok r2ok :: rest⟩).out
        = Except.ok r2ok.text
      ∧ List.countP (isTargetPost path) (apiPost cfg chk path ⟨true, c0, pk, true,
          ServerResponse.ok r1 :: ServerResponse.ok idxR :: ServerResponse.ok r2ok :: rest⟩).trace = 2
      ∧ List.countP (isTargetGet ("html/index.html#/login")) (apiPost cfg chk path ⟨true, c0, pk, true,
          ServerResponse.ok r1 :: ServerResponse.ok idxR :: ServerResponse.ok r2ok :: rest⟩).trace = 1
      ∧ List.countP isAuthStart (apiPost cfg chk path ⟨true, c0, pk, true,
          ServerResponse.ok r1 :: ServerResponse.ok idxR :: ServerResponse.ok r2ok :: rest⟩).trace = 0
      ∧ List.countP isLogoutPost (apiPost cfg chk path ⟨true, c0, pk, true,
          ServerResponse.ok r1 :: ServerResponse.ok idxR :: ServerResponse.ok r2ok :: rest⟩).trace = 0)
    ∧ (apiPost cfg chk path ⟨true, c0, pk, true,
        ServerResponse.ok r1 :: ServerResponse.ok idxR :: ServerResponse.ok r2c :: rest⟩).out
        = Except.error (PyErr.api e2 (some APICALL_ERRCAT_CSRF)) := by
  obtain ⟨ho1, ht1⟩ := run_get_csrf_retry cfg chk path c0 pk r1 idxR r2ok rest e1 p1 t1
    hchk1 herr1 hidx hm1 hm2 hchk2
  obtain ⟨ho2, _⟩ := run_get_csrf_retry cfg chk path c0 pk r1 idxR r2c rest e1 p1 t1
    hchk1 herr1 hidx hm1 hm2 hchk2c
  obtain ⟨ho3, ht3⟩ := run_post_csrf_retry cfg chk path c0 pk r1 idxR r2ok rest e1 p1 t1
    herr1 hidx hm1 hm2 hchk2
  obtain ⟨ho4, _⟩ := run_post_csrf_retry cfg chk path c0 pk r1 idxR r2c rest e1 p1 t1
    herr1 hidx hm1 hm2 hchk2c
  rw [herr2] at ho1 ho3
  rw [herr2c] at ho2 ho4
  refine ⟨⟨ho1, ?_, ?_, ?_, ?_⟩, ho2, ⟨ho3, ?_, ?_, ?_, ?_⟩, ho4⟩ <;>
    first
      | (rw [ht1]; simp [List.countP_cons, isTargetGet, isTargetPost, isLogoutPost, isAuthStart,
          hpath, Ne.symm hpath])
      | (rw [ht3]; simp [List.countP_cons, isTargetGet, isTargetPost, isLogoutPost, isAuthStart,
          hpath, Ne.symm hpath])

/-- C4 witness: the CSRF retry theorem applied to a concrete server that
answers with a csrf_error body once, serves the login page, and then
succeeds, for both Get and Post, plus concrete propagation of a second
csrf_error. -/
theorem claim4_witness :
    ((apiGet ⟨"admin", "pw", "aaaa"⟩ check_authorized ("p")
        ⟨true, some ⟨"p0", "t0"⟩, none, true,
          ServerResponse.ok { status := 200, text := some { err := some 1, errorCategory := some ("csrf_error") } }
            :: ServerResponse.ok { status := 200, metaParam := some ("p1"), metaToken := some ("t1") }
            :: ServerResponse.ok { status := 200, text := some {} } :: []⟩).out
        = Except.ok (some {})
      ∧ List.countP (isTargetGet ("p")) (apiGet ⟨"admin", "pw", "aaaa"⟩ check_authorized ("p")
          ⟨true, some ⟨"p0", "t0"⟩, none, true,
            ServerResponse.ok { status := 200, text := some { err := some 1, errorCategory := some ("csrf_error") } }
              :: ServerResponse.ok { status := 200, metaParam := some ("p1"), metaToken := some ("t1") }
              :: ServerResponse.ok { status := 200, text := some {} } :: []⟩).trace = 2
      ∧ List.countP (isTargetGet ("html/index.html#/login")) (apiGet ⟨"admin", "pw", "aaaa"⟩ check_authorized ("p")
          ⟨true, some ⟨"p0", "t0"⟩, none, true,
            ServerResponse.ok { status := 200, text := some { err := some 1, errorCategory := some ("csrf_error") } }
              :: ServerResponse.ok { status := 200, metaParam := some ("p1"), metaToken := some ("t1") }
              :: ServerResponse.ok { status := 200, text := some {} } :: []⟩).trace = 1
      ∧ List.countP isAuthStart (apiGet ⟨"admin", "pw", "aaaa"⟩ check_authorized ("p")
          ⟨true, some ⟨"p0", "t0"⟩, none, true,
            ServerResponse.ok { status := 200, text := some { err := some 1, errorCategory := some ("csrf_error") } }
              :: ServerResponse.ok { status := 200, metaParam := some ("p1"), metaToken := some ("t1") }
              :: ServerResponse.ok { status := 200, text := some {} } :: []⟩).trace = 0
      ∧ List.countP isLogoutPost (apiGet ⟨"admin", "pw", "aaaa"⟩ check_authorized ("p")
          ⟨true, some ⟨"p0", "t0"⟩, none, true,
            ServerResponse.ok { status := 200, text := some { err := some 1, errorCategory := some ("csrf_error") } }
              :: ServerResponse.ok { status := 200, metaParam := some ("p1"), metaToken := some ("t1") }
              :: ServerResponse.ok { status := 200, text := some {} } :: []⟩).trace = 0)
    ∧ (apiGet ⟨"admin", "pw", "aaaa"⟩ check_authorized ("p")
        ⟨true, some ⟨"p0", "t0"⟩, none, true,
          ServerResponse.ok { status := 200, text := some { err := some 1, errorCategory := some ("csrf_error") } }
            :: ServerResponse.ok { status := 200, metaParam := some ("p1"), metaToken := some ("t1") }
            :: ServerResponse.ok { status := 200, text := some { err := some 2, errorCategory := some ("csrf_error") } } :: []⟩).out
        = Except.error (PyErr.api (some 2) (some APICALL_ERRCAT_CSRF))
    ∧ ((apiPost ⟨"admin", "pw", "aaaa"⟩ check_authorized ("p")
        ⟨true, some ⟨"p0", "t0"⟩, none, true,
          ServerResponse.ok { status := 200, text := some { err := some 1, errorCategory := some ("csrf_error") } }
            :: ServerResponse.ok { status := 200, metaParam := some ("p1"), metaToken := some ("t1") }
            :: ServerResponse.ok { status := 200, text := some {} } :: []⟩).out
        = Except.ok (some {})
      ∧ List.countP (isTargetPost ("p")) (apiPost ⟨"admin", "pw", "aaaa"⟩ check_authorized ("p")
          ⟨true, some ⟨"p0", "t0"⟩, none, true,
            ServerResponse.ok { status := 200, text := some { err := some 1, errorCategory := some ("csrf_error") } }
              :: ServerResponse.ok { status := 200, metaParam := some ("p1"), metaToken := some ("t1") }
              :: ServerResponse.ok { status := 200, text := some {} } :: []⟩).trace = 2
      ∧ List.countP (isTargetGet ("html/index.html#/login")) (apiPost ⟨"admin", "pw", "aaaa"⟩ check_authorized ("p")
          ⟨true, some ⟨"p0", "t0"⟩, none, true,
            ServerResponse.ok { status := 200, text := some { err := some 1, errorCategory := some ("csrf_error") } }
              :: ServerResponse.ok { status := 200, metaParam := some ("p1"), metaToken := some ("t1") }
              :: ServerResponse.ok { status := 200, text := some {} } :: []⟩).trace = 1
      ∧ List.countP isAuthStart (apiPost ⟨"admin", "pw", "aaaa"⟩ check_authorized ("p")
          ⟨true, some ⟨"p0", "t0"⟩, none, true,
            ServerResponse.ok { status := 200, text := some { err := some 1, errorCategory := some ("csrf_error") } }
              :: ServerResponse.ok { status := 200, metaParam := some ("p1"), metaToken := some ("t1") }
              :: ServerResponse.ok { status := 200, text := some {} } :: []⟩).trace = 0
      ∧ List.countP isLogoutPost (apiPost ⟨"admin", "pw", "aaaa"⟩ check_authorized ("p")
          ⟨true, some ⟨"p0", "t0"⟩, none, true,
            ServerResponse.ok { status := 200, text := some { err := some 1, errorCategory := some ("csrf_error") } }
              :: ServerResponse.ok { status := 200, metaParam := some ("p1"), metaToken := some ("t1") }
              :: ServerResponse.ok { status := 200, text := some {} } :: []⟩).trace = 0)
    ∧ (apiPost ⟨"admin", "pw", "aaaa"⟩ check_authorized ("p")
        ⟨true, some ⟨"p0", "t0"⟩, none, true,
          ServerResponse.ok { status := 200, text := some { err := some 1, errorCategory := some ("csrf_error") } }
            :: ServerResponse.ok { status := 200, metaParam := some ("p1"), metaToken := some ("t1") }
            :: ServerResponse.ok { status := 200, text := some { err := some 2, errorCategory := some ("csrf_error") } } :: []⟩).out
        = Except.error (PyErr.api (some 2) (some APICALL_ERRCAT_CSRF)) :=
  claim4_csrf_retry ⟨"admin", "pw", "aaaa"⟩ check_authorized ("p")
    (some ⟨"p0", "t0"⟩) none
    { status := 200, text := some { err := some 1, errorCategory := some ("csrf_error") } }
    { status := 200, metaParam := some ("p1"), metaToken := some ("t1") }
    { status := 200, text := some {} }
    { status := 200, text := some { err := some 2, errorCategory := some ("csrf_error") } }
    [] (some 1) (some 2) ("p1") ("t1")
    (by decide) (by decide) (by decide) (by decide) (by decide) (by decide)
    (by decide) (by decide) (by decide) (by decide)

/-- The best-effort logout on any script (also an exhausted one) returns
normally, emits exactly one logout POST carrying the active pair, and
preserves the public key and the initialized flag. -/
theorem try_logout_general (c : Option Csrf) (pk : Option (String × String × String))
    (ini : Bool) (pending : List ServerResponse) :
    ∃ c1 pend1, try_logout ⟨true, c, pk, ini, pending⟩
      = ⟨⟨true, c1, pk, ini, pend1⟩,
         [Event.httpPost ("api/system/user_logout") c PostData.logoutData], Except.ok ()⟩ := by
  cases pending with
  | nil =>
    exact ⟨c, [], by simp [try_logout, retry_on_csrf_error, try_logout_body, swallow, step,
      post_raw, ret, throwE]⟩
  | cons sr rest =>
    obtain ⟨c1, h⟩ := try_logout_consume c pk ini sr rest
    exact ⟨c1, rest, by rw [h]⟩

/-- Sequencing only ever appends events after those of the first part. -/
theorem step_trace_prefix {α β : Type} (r : RunResult α) (f : α → ApiState → RunResult β) :
    ∃ t, (step r f).trace = r.trace ++ t := by
  rcases hout : r.out with e | a
  · exact ⟨[], by simp [step, hout]⟩
  · exact ⟨(f a r.st).trace, by simp [step, hout]⟩

/-- The csrf-retry wrapper only ever appends events after those of the
first attempt. -/
theorem retry_trace_prefix {α : Type} (f : ApiState → RunResult α) (st : ApiState) :
    ∃ t, (retry_on_csrf_error f st).trace = (f st).trace ++ t := by
  unfold retry_on_csrf_error
  rcases hout : (f st).out with e | a
  · rcases e with ⟨code, cat⟩ | r | _
    · by_cases hcat : cat = some APICALL_ERRCAT_CSRF
      · rcases hout2 : (init_csrf (f st).st).out with e2 | b
        · exact ⟨(init_csrf (f st).st).trace, by simp [hout, hcat, hout2]⟩
        · rcases b with _ | _
          · exact ⟨(init_csrf (f st).st).trace, by simp [hout, hcat, hout2]⟩
          · exact ⟨(init_csrf (f st).st).trace ++ (f (init_csrf (f st).st).st).trace,
              by simp [hout, hcat, hout2]⟩
      · exact ⟨[], by simp [hout, hcat]⟩
    · exact ⟨[], by simp [hout]⟩
    · exact ⟨[], by simp [hout]⟩
  · exact ⟨[], by simp [hout]⟩

/-! Claim C10: disconnect does not reset the initialized flag. -/

/-- C10: disconnect on an initialized connection drops the session but
leaves the initialized flag set, so a later Get or Post skips
re-authentication entirely (no events besides the call lock, in
particular no auth-lock acquisition and no HTTP request) and fails with
ApiCallError code -3, category request_error, because the session object
is gone. -/
theorem claim10_disconnect (cfg : Config) (chk : HttpResponse → Option Body → Bool)
    (path payloadPath : String) (c0 : Option Csrf)
    (pk : Option (String × String × String)) (pending : List ServerResponse)
    (st1 : ApiState) (h1 : st1.session = false) (h2 : st1.is_initialized = true) :
    ((disconnect ⟨true, c0, pk, true, pending⟩).st.is_initialized = true
      ∧ (disconnect ⟨true, c0, pk, true, pending⟩).st.session = false)
    ∧ ((apiGet cfg chk path st1).out
        = Except.error (PyErr.api (some APICALL_ERRCODE_REQUEST) (some APICALL_ERRCAT_REQUEST))
      ∧ (apiGet cfg chk path st1).trace = [Event.acquireCall, Event.releaseCall])
    ∧ ((apiPost cfg chk payloadPath st1).out
        = Except.error (PyErr.api (some APICALL_ERRCODE_REQUEST) (some APICALL_ERRCAT_REQUEST))
      ∧ (apiPost cfg chk payloadPath st1).trace = [Event.acquireCall, Event.releaseCall]) := by
  obtain ⟨c1, pend1, hlog⟩ := try_logout_general c0 pk true pending
  refine ⟨?_, ?_, ?_⟩
  · constructor <;> simp [disconnect, lock_call, lock_auth, disconnect_body, step, hlog, ret]
  · constructor <;>
      simp [apiGet, retry_on_csrf_error, lock_call, get_inner, ensure_initialized, step,
        get_raw, h1, h2, ret, throwE, APICALL_ERRCAT_REQUEST, APICALL_ERRCAT_CSRF]
  · constructor <;>
      simp [apiPost, retry_on_csrf_error, lock_call, post_inner, ensure_initialized, step,
        post_raw, h1, h2, ret, throwE, APICALL_ERRCAT_REQUEST, APICALL_ERRCAT_CSRF]

/-- C10 witness: disconnecting a concrete initialized connection and then
issuing a Get and a Post on the resulting state. -/
theorem claim10_witness :
    (((disconnect ⟨true, some ⟨"p0", "t0"⟩, none, true, []⟩).st.is_initialized = true
      ∧ (disconnect ⟨true, some ⟨"p0", "t0"⟩, none, true, []⟩).st.session = false)
    ∧ ((apiGet ⟨"admin", "pw", "aaaa"⟩ check_authorized ("p")
          (disconnect ⟨true, some ⟨"p0", "t0"⟩, none, true, []⟩).st).out
        = Except.error (PyErr.api (some APICALL_ERRCODE_REQUEST) (some APICALL_ERRCAT_REQUEST))
      ∧ (apiGet ⟨"admin", "pw", "aaaa"⟩ check_authorized ("p")
          (disconnect ⟨true, some ⟨"p0", "t0"⟩, none, true, []⟩).st).trace
        = [Event.acquireCall, Event.releaseCall])
    ∧ ((apiPost ⟨"admin", "pw", "aaaa"⟩ check_authorized ("q")
          (disconnect ⟨true, some ⟨"p0", "t0"⟩, none, true, []⟩).st).out
        = Except.error (PyErr.api (some APICALL_ERRCODE_REQUEST) (some APICALL_ERRCAT_REQUEST))
      ∧ (apiPost ⟨"admin", "pw", "aaaa"⟩ check_authorized ("q")
          (disconnect ⟨true, some ⟨"p0", "t0"⟩, none, true, []⟩).st).trace
        = [Event.acquireCall, Event.releaseCall])) :=
  claim10_disconnect ⟨"admin", "pw", "aaaa"⟩ check_authorized ("p") ("q")
    (some ⟨"p0", "t0"⟩) none []
    (disconnect ⟨true, some ⟨"p0", "t0"⟩, none, true, []⟩).st
    (by decide) (by decide)

/-! Claim C5: csrf adoption. -/

/-- C5 counterexample: a GET answered with status 404 whose body carries
the csrf pair (pX, tX) is rejected by the default predicate; the pair is
never adopted and the immediately following outgoing request, the logout
POST, carries the previously active pair (p0, t0), not (pX, tX): a pair
received in a predicate-rejected GET response is dropped. -/
theorem claim5_counterexample :
    (apiGet ⟨"admin", "pw", "aaaa"⟩ check_authorized ("p")
        ⟨true, some ⟨"p0", "t0"⟩, none, true,
          [ServerResponse.ok { status := 404, text := some { csrf_param := some ("pX"), csrf_token := some ("tX") } },
           ServerResponse.ok { status := 200 }]⟩).trace
      = [Event.acquireCall, Event.httpGet ("p"),
         Event.httpPost ("api/system/user_logout") (some ⟨"p0", "t0"⟩) PostData.logoutData,
         Event.acquireAuth, Event.httpGet ("html/index.html#/login"),
         Event.releaseAuth, Event.releaseCall]
    ∧ (apiGet ⟨"admin", "pw", "aaaa"⟩ check_authorized ("p")
        ⟨true, some ⟨"p0", "t0"⟩, none, true,
          [ServerResponse.ok { status := 404, text := some { csrf_param := some ("pX"), csrf_token := some ("tX") } },
           ServerResponse.ok { status := 200 }]⟩).trace.getD 2 Event.acquireCall
      ≠ Event.httpPost ("api/system/user_logout") (some ⟨"pX", "tX"⟩) PostData.logoutData := by
  constructor
  · decide
  · decide

/-- C5 amended: a csrf pair is adopted exactly when the executor reaches
the csrf-handling step for its response.  A first-attempt POST response
always adopts its pair (csrf handling precedes the authorized predicate
there), and the logout POST of an ensuing unauthorized retry carries it;
a predicate-accepted GET response adopts its pair.  But a pair carried by
a predicate-rejected GET response is discarded (the response is dropped
before csrf handling), and a pair carried by a predicate-rejected
RETRIED POST response is discarded as well: the -2 unauthorized raise
precedes csrf handling on the retried response, so the pair adopted
during the re-login remains the active one. -/
theorem claim5_csrf_adoption
    (cfg : Config) (chk : HttpResponse → Option Body → Bool) (path : String)
    (c0 : Option Csrf) (pk : Option (String × String × String))
    (r1 rR : HttpResponse) (sL : ServerResponse) (rest restR : List ServerResponse)
    (b1 bR : Body) (px tx pxR txR : String)
    (htext : r1.text = some b1)
    (hb1p : b1.csrf_param = some px) (hb1t : b1.csrf_token = some tx)
    (herr1 : handle_error_dict (some b1) = Except.ok ())
    (hchk1 : chk r1 r1.text = true)
    (htextR : rR.text = some bR)
    (hbRp : bR.csrf_param = some pxR) (hbRt : bR.csrf_token = some txR)
    (herrR : handle_error_dict (some bR) = Except.ok ())
    (hchkR : chk rR rR.text = false)
    (rV : HttpResponse) (sL2 : ServerResponse) (idxR nonceR proofR r2v : HttpResponse)
    (restV : List ServerResponse) (p1 t1 p2 t2 sn sa pY tY : String) (nb b2v : Body) (it : Nat)
    (cp : String)
    (herrV : handle_error_dict rV.text = Except.ok ())
    (hchkV : chk rV rV.text = false)
    (hidx : idxR.status = 200) (hm1 : idxR.metaParam = some p1) (hm2 : idxR.metaToken = some t1)
    (hns : nonceR.status = 200) (hnt : nonceR.text = some nb)
    (herrN : handle_error_dict (some nb) = Except.ok ())
    (hnbp : nb.csrf_param = some p2) (hnbt : nb.csrf_token = some t2)
    (hsn : nb.servernonce = some sn) (hit : nb.iterations = some it) (hsa : nb.salt = some sa)
    (hcp : get_client_proof cfg.password sa it cfg.firstNonce sn = some cp)
    (hps : proofR.status = 200)
    (herrP : handle_error_dict proofR.text = Except.ok ())
    (htext2v : r2v.text = some b2v)
    (hb2vp : b2v.csrf_param = some pY) (hb2vt : b2v.csrf_token = some tY)
    (hchk2v : chk r2v r2v.text = false) :
    ((apiGet cfg chk path ⟨true, c0, pk, true, ServerResponse.ok r1 :: rest⟩).out
        = Except.ok (some b1)
      ∧ (apiGet cfg chk path ⟨true, c0, pk, true, ServerResponse.ok r1 :: rest⟩).st.active_csrf
        = some ⟨px, tx⟩)
    ∧ ((apiPost cfg chk path ⟨true, c0, pk, true, ServerResponse.ok r1 :: rest⟩).out
        = Except.ok (some b1)
      ∧ (apiPost cfg chk path ⟨true, c0, pk, true, ServerResponse.ok r1 :: rest⟩).st.active_csrf
        = some ⟨px, tx⟩)
    ∧ (∃ t, (apiPost cfg chk path ⟨true, c0, pk, true,
          ServerResponse.ok rR :: sL :: restR⟩).trace
        = Event.acquireCall :: Event.httpPost path c0 PostData.apiData
          :: Event.httpPost ("api/system/user_logout") (some ⟨pxR, txR⟩) PostData.logoutData :: t)
    ∧ ((apiPost cfg chk path ⟨true, c0, pk, true,
          ServerResponse.ok rV :: sL2 :: ServerResponse.ok idxR :: ServerResponse.ok nonceR
            :: ServerResponse.ok proofR :: ServerResponse.ok r2v :: restV⟩).out
        = Except.error (PyErr.api (some APICALL_ERRCODE_UNAUTHORIZED)
            (some APICALL_ERRCAT_UNAUTHORIZED))
      ∧ (apiPost cfg chk path ⟨true, c0, pk, true,
          ServerResponse.ok rV :: sL2 :: ServerResponse.ok idxR :: ServerResponse.ok nonceR
            :: ServerResponse.ok proofR :: ServerResponse.ok r2v :: restV⟩).st.active_csrf
        = adopted_csrf proofR.text (some ⟨p2, t2⟩)) := by
  rw [htext] at hchk1
  rw [htextR] at hchkR
  refine ⟨?_, ?_, ?_, ?_⟩
  · constructor <;>
      simp [apiGet, retry_on_csrf_error, lock_call, get_inner, ensure_initialized, step,
        get_raw, finish_get, handle_csrf_dict, adopted_csrf, csrf_of,
        htext, hb1p, hb1t, herr1, hchk1, ret, throwE]
  · constructor <;>
      simp [apiPost, retry_on_csrf_error, lock_call, post_inner, ensure_initialized, step,
        post_raw, handle_csrf_dict, adopted_csrf, csrf_of,
        htext, hb1p, hb1t, herr1, hchk1, ret, throwE]
  · obtain ⟨c1, hlog⟩ := try_logout_consume (some ⟨pxR, txR⟩) pk true sL restR
    obtain ⟨t2, ht2⟩ := retry_trace_prefix
      (fun s => lock_call (post_inner cfg chk path) s)
      ⟨true, c0, pk, true, ServerResponse.ok rR :: sL :: restR⟩
    unfold apiPost
    rw [ht2, lock_call_trace]
    simp only [post_inner, ensure_initialized, step, post_raw, handle_csrf_dict,
      adopted_csrf, csrf_of, htextR, hbRp, hbRt, herrR, hchkR, hlog, ret, throwE,
      ite_true, ite_false, List.cons_append, List.nil_append, ne_eq,
      decide_True, decide_False, Bool.true_eq_false, Bool.false_eq_true,
      not_true, not_false_iff, String.reduceEq, Option.some.injEq, reduceCtorEq]
    exact ⟨_, rfl⟩
  · exact run_post_unauth_fail_state cfg chk path c0 pk rV sL2 idxR nonceR proofR r2v restV
      p1 t1 nb p2 t2 sn sa it cp herrV hchkV hidx hm1 hm2 hns hnt herrN hnbp hnbt hsn hit hsa
      hcp hps herrP hchk2v

/-- C5 witness: the adoption theorem applied to a concrete accepted GET
and POST response carrying the pair (pA, tA), to a concrete rejected
POST response carrying (pB, tB) whose following logout POST carries
exactly that pair, and to a rejected retried POST response carrying
(pY, tY) whose pair is discarded: the call ends with the re-login pair
(p2, t2) active. -/
theorem claim5_witness :
    (((apiGet ⟨"admin", "pw", "aaaa"⟩ check_authorized ("p")
        ⟨true, some ⟨"p0", "t0"⟩, none, true,
          ServerResponse.ok { status := 200, text := some { csrf_param := some ("pA"), csrf_token := some ("tA") } } :: []⟩).out
        = Except.ok (some { csrf_param := some ("pA"), csrf_token := some ("tA") })
      ∧ (apiGet ⟨"admin", "pw", "aaaa"⟩ check_authorized ("p")
        ⟨true, some ⟨"p0", "t0"⟩, none, true,
          ServerResponse.ok { status := 200, text := some { csrf_param := some ("pA"), csrf_token := some ("tA") } } :: []⟩).st.active_csrf
        = some ⟨"pA", "tA"⟩)
    ∧ ((apiPost ⟨"admin", "pw", "aaaa"⟩ check_authorized ("p")
        ⟨true, some ⟨"p0", "t0"⟩, none, true,
          ServerResponse.ok { status := 200, text := some { csrf_param := some ("pA"), csrf_token := some ("tA") } } :: []⟩).out
        = Except.ok (some { csrf_param := some ("pA"), csrf_token := some ("tA") })
      ∧ (apiPost ⟨"admin", "pw", "aaaa"⟩ check_authorized ("p")
        ⟨true, some ⟨"p0", "t0"⟩, none, true,
          ServerResponse.ok { status := 200, text := some { csrf_param := some ("pA"), csrf_token := some ("tA") } } :: []⟩).st.active_csrf
        = some ⟨"pA", "tA"⟩)
    ∧ (∃ t, (apiPost ⟨"admin", "pw", "aaaa"⟩ check_authorized ("p")
        ⟨true, some ⟨"p0", "t0"⟩, none, true,
          ServerResponse.ok { status := 404, text := some { csrf_param := some ("pB"), csrf_token := some ("tB") } }
            :: ServerResponse.ok { status := 200 } :: []⟩).trace
        = Event.acquireCall :: Event.httpPost ("p") (some ⟨"p0", "t0"⟩) PostData.apiData
          :: Event.httpPost ("api/system/user_logout") (some ⟨"pB", "tB"⟩) PostData.logoutData :: t)
    ∧ ((apiPost ⟨"admin", "pw", "aaaa"⟩ check_authorized ("p")
        ⟨true, some ⟨"p0", "t0"⟩, none, true,
          ServerResponse.ok { status := 404 } :: ServerResponse.ok { status := 200 }
            :: ServerResponse.ok { status := 200, metaParam := some ("q1"), metaToken := some ("u1") }
            :: ServerResponse.ok { status := 200, text := some { csrf_param := some ("q2"), csrf_token := some ("u2"), servernonce := some ("bbbb"), salt := some ("00ff"), iterations := some 1 } }
            :: ServerResponse.ok { status := 200 }
            :: ServerResponse.ok { status := 404, text := some { csrf_param := some ("pY"), csrf_token := some ("tY") } } :: []⟩).out
        = Except.error (PyErr.api (some APICALL_ERRCODE_UNAUTHORIZED)
            (some APICALL_ERRCAT_UNAUTHORIZED))
      ∧ (apiPost ⟨"admin", "pw", "aaaa"⟩ check_authorized ("p")
        ⟨true, some ⟨"p0", "t0"⟩, none, true,
          ServerResponse.ok { status := 404 } :: ServerResponse.ok { status := 200 }
            :: ServerResponse.ok { status := 200, metaParam := some ("q1"), metaToken := some ("u1") }
            :: ServerResponse.ok { status := 200, text := some { csrf_param := some ("q2"), csrf_token := some ("u2"), servernonce := some ("bbbb"), salt := some ("00ff"), iterations := some 1 } }
            :: ServerResponse.ok { status := 200 }
            :: ServerResponse.ok { status := 404, text := some { csrf_param := some ("pY"), csrf_token := some ("tY") } } :: []⟩).st.active_csrf
        = some ⟨"q2", "u2"⟩)) :=
  claim5_csrf_adoption ⟨"admin", "pw", "aaaa"⟩ check_authorized ("p")
    (some ⟨"p0", "t0"⟩) none
    { status := 200, text := some { csrf_param := some ("pA"), csrf_token := some ("tA") } }
    { status := 404, text := some { csrf_param := some ("pB"), csrf_token := some ("tB") } }
    (ServerResponse.ok { status := 200 }) [] []
    { csrf_param := some ("pA"), csrf_token := some ("tA") }
    { csrf_param := some ("pB"), csrf_token := some ("tB") }
    ("pA") ("tA") ("pB") ("tB")
    (by decide) (by decide) (by decide) (by decide) (by decide)
    (by decide) (by decide) (by decide) (by decide) (by decide)
    { status := 404 } (ServerResponse.ok { status := 200 })
    { status := 200, metaParam := some ("q1"), metaToken := some ("u1") }
    { status := 200, text := some { csrf_param := some ("q2"), csrf_token := some ("u2"), servernonce := some ("bbbb"), salt := some ("00ff"), iterations := some 1 } }
    { status := 200 }
    { status := 404, text := some { csrf_param := some ("pY"), csrf_token := some ("tY") } }
    [] ("q1") ("u1") ("q2") ("u2") ("bbbb") ("00ff") ("pY") ("tY")
    { csrf_param := some ("q2"), csrf_token := some ("u2"), servernonce := some ("bbbb"), salt := some ("00ff"), iterations := some 1 }
    { csrf_param := some ("pY"), csrf_token := some ("tY") } 1
    ("a628fa1c807df6b91f1600b92940a49aa84e54ff13b8523f5a37c8609c26f13b")
    (by decide) (by decide) (by decide) (by decide) (by decide) (by decide) (by decide)
    (by decide) (by decide) (by decide) (by decide) (by decide) (by decide) (by decide)
    (by decide) (by decide) (by decide) (by decide) (by decide) (by decide)

/-! Claim C6: response processing order. -/

/-- C6 counterexample: a POST answered with status 404 (which the default
predicate rejects) and a vendor-error body raises the vendor ApiCallError
(code 9, category x) immediately: the trace shows a single POST and no
logout, re-login or repeat, so the vendor error was raised before the
authorized predicate was acted on, refuting the claimed step order. -/
theorem claim6_counterexample :
    (apiPost ⟨"admin", "pw", "aaaa"⟩ check_authorized ("p")
        ⟨true, some ⟨"p0", "t0"⟩, none, true,
          [ServerResponse.ok { status := 404, text := some { err := some 9, errorCategory := some ("x") } }]⟩).out
      = Except.error (PyErr.api (some 9) (some ("x")))
    ∧ (apiPost ⟨"admin", "pw", "aaaa"⟩ check_authorized ("p")
        ⟨true, some ⟨"p0", "t0"⟩, none, true,
          [ServerResponse.ok { status := 404, text := some { err := some 9, errorCategory := some ("x") } }]⟩).trace
      = [Event.acquireCall, Event.httpPost ("p") (some ⟨"p0", "t0"⟩) PostData.apiData,
         Event.releaseCall] := by
  constructor
  · decide
  · decide

/-- C6 amended: the processing order differs between the two verbs and,
for POST, between the two attempts.  POST adopts any csrf pair and raises
any vendor error of the FIRST body before evaluating the authorized
predicate, so a non-csrf vendor error ends the call after a single POST
regardless of the predicate; but POST checks its RETRIED response with
the predicate first: a rejected retried response raises the -2
unauthorized error even when its body carries a vendor error object, and
an accepted retried response adopts its csrf pair and only then raises
its vendor error.  GET evaluates the predicate first on every response,
so a rejected GET response never raises its body's vendor error and the
call proceeds to logout and re-login, and on an accepted GET response
the body's csrf pair is adopted and only then its vendor error raised. -/
theorem claim6_processing_order
    (cfg : Config) (chk chkG : HttpResponse → Option Body → Bool) (path : String)
    (c0 : Option Csrf) (pk : Option (String × String × String))
    (r1 rG rA : HttpResponse) (sL : ServerResponse) (rest restG restA : List ServerResponse)
    (e eA : Option Int) (cat catA : String) (bA : Body) (px tx : String)
    (herr1 : handle_error_dict r1.text = Except.error (PyErr.api e (some cat)))
    (hcat : cat ≠ APICALL_ERRCAT_CSRF)
    (hchkG : chkG rG rG.text = false)
    (htextA : rA.text = some bA)
    (hbAp : bA.csrf_param = some px) (hbAt : bA.csrf_token = some tx)
    (herrA : handle_error_dict (some bA) = Except.error (PyErr.api eA (some catA)))
    (hcatA : catA ≠ APICALL_ERRCAT_CSRF)
    (hchkA : chkG rA rA.text = true)
    (r1n : HttpResponse) (sL2 : ServerResponse) (idxR nonceR proofR r2e r2a : HttpResponse)
    (restE restA2 : List ServerResponse) (p1 t1 p2 t2 sn sa pD tD : String) (nb b2a : Body)
    (it : Nat) (cp : String) (e2 e3 : Option Int) (cat2 cat3 : String)
    (herr1n : handle_error_dict r1n.text = Except.ok ())
    (hchk1n : chk r1n r1n.text = false)
    (hidx : idxR.status = 200) (hm1 : idxR.metaParam = some p1) (hm2 : idxR.metaToken = some t1)
    (hns : nonceR.status = 200) (hnt : nonceR.text = some nb)
    (herrN : handle_error_dict (some nb) = Except.ok ())
    (hnbp : nb.csrf_param = some p2) (hnbt : nb.csrf_token = some t2)
    (hsn : nb.servernonce = some sn) (hit : nb.iterations = some it) (hsa : nb.salt = some sa)
    (hcp : get_client_proof cfg.password sa it cfg.firstNonce sn = some cp)
    (hps : proofR.status = 200)
    (herrP : handle_error_dict proofR.text = Except.ok ())
    (herr2e : handle_error_dict r2e.text = Except.error (PyErr.api e2 (some cat2)))
    (hchk2e : chk r2e r2e.text = false)
    (htext2a : r2a.text = some b2a)
    (hb2ap : b2a.csrf_param = some pD) (hb2at : b2a.csrf_token = some tD)
    (herr2a : handle_error_dict (some b2a) = Except.error (PyErr.api e3 (some cat3)))
    (hcat3 : cat3 ≠ APICALL_ERRCAT_CSRF)
    (hchk2a : chk r2a r2a.text = true) :
    ((apiPost cfg chk path ⟨true, c0, pk, true, ServerResponse.ok r1 :: rest⟩).out
        = Except.error (PyErr.api e (some cat))
      ∧ (apiPost cfg chk path ⟨true, c0, pk, true, ServerResponse.ok r1 :: rest⟩).trace
        = [Event.acquireCall, Event.httpPost path c0 PostData.apiData, Event.releaseCall])
    ∧ (∃ t, (apiGet cfg chkG path ⟨true, c0, pk, true,
          ServerResponse.ok rG :: sL :: restG⟩).trace
        = Event.acquireCall :: Event.httpGet path
          :: Event.httpPost ("api/system/user_logout") c0 PostData.logoutData :: t)
    ∧ ((apiGet cfg chkG path ⟨true, c0, pk, true, ServerResponse.ok rA :: restA⟩).out
        = Except.error (PyErr.api eA (some catA))
      ∧ (apiGet cfg chkG path ⟨true, c0, pk, true,
          ServerResponse.ok rA :: restA⟩).st.active_csrf = some ⟨px, tx⟩)
    ∧ (apiPost cfg chk path ⟨true, c0, pk, true,
          ServerResponse.ok r1n :: sL2 :: ServerResponse.ok idxR :: ServerResponse.ok nonceR
            :: ServerResponse.ok proofR :: ServerResponse.ok r2e :: restE⟩).out
        = Except.error (PyErr.api (some APICALL_ERRCODE_UNAUTHORIZED)
            (some APICALL_ERRCAT_UNAUTHORIZED))
    ∧ ((apiPost cfg chk path ⟨true, c0, pk, true,
          ServerResponse.ok r1n :: sL2 :: ServerResponse.ok idxR :: ServerResponse.ok nonceR
            :: ServerResponse.ok proofR :: ServerResponse.ok r2a :: restA2⟩).out
        = Except.error (PyErr.api e3 (some cat3))
      ∧ (apiPost cfg chk path ⟨true, c0, pk, true,
          ServerResponse.ok r1n :: sL2 :: ServerResponse.ok idxR :: ServerResponse.ok nonceR
            :: ServerResponse.ok proofR :: ServerResponse.ok r2a :: restA2⟩).st.active_csrf
        = some ⟨pD, tD⟩) := by
  rw [htextA] at hchkA
  simp only [APICALL_ERRCAT_CSRF] at hcat hcatA
  refine ⟨?_, ?_, ?_, ?_, ?_⟩
  · constructor <;>
      simp [apiPost, retry_on_csrf_error, lock_call, post_inner, ensure_initialized, step,
        post_raw, handle_csrf_dict, herr1, hcat, ret, throwE, APICALL_ERRCAT_CSRF]
  · obtain ⟨c1, hlog⟩ := try_logout_consume c0 pk true sL restG
    obtain ⟨t2, ht2⟩ := retry_trace_prefix
      (fun s => lock_call (get_inner cfg chkG path) s)
      ⟨true, c0, pk, true, ServerResponse.ok rG :: sL :: restG⟩
    unfold apiGet
    rw [ht2, lock_call_trace]
    simp only [get_inner, ensure_initialized, step, get_raw, finish_get, handle_csrf_dict,
      hchkG, hlog, ret, throwE, ite_true, ite_false, List.cons_append, List.nil_append,
      ne_eq, decide_True, decide_False, Bool.true_eq_false, Bool.false_eq_true,
      not_true, not_false_iff, String.reduceEq, Option.some.injEq, reduceCtorEq]
    exact ⟨_, rfl⟩
  · constructor <;>
      simp [apiGet, retry_on_csrf_error, lock_call, get_inner, ensure_initialized, step,
        get_raw, finish_get, handle_csrf_dict, adopted_csrf, csrf_of,
        htextA, hbAp, hbAt, herrA, hcatA, hchkA, ret, throwE, APICALL_ERRCAT_CSRF]
  · exact (run_post_unauth_fail cfg chk path c0 pk r1n sL2 idxR nonceR proofR r2e restE
      p1 t1 nb p2 t2 sn sa it cp herr1n hchk1n hidx hm1 hm2 hns hnt herrN hnbp hnbt hsn
      hit hsa hcp hps herrP hchk2e).1
  · exact run_post_retried_vendor cfg chk path c0 pk r1n sL2 idxR nonceR proofR r2a restA2
      p1 t1 nb b2a p2 t2 sn sa pD tD it cp e3 cat3 herr1n hchk1n hidx hm1 hm2 hns hnt herrN
      hnbp hnbt hsn hit hsa hcp hps herrP hchk2a htext2a hb2ap hb2at herr2a hcat3

/-- C6 witness: the processing-order theorem applied to a concrete
vendor-error POST, a concrete rejected GET, a concrete accepted GET
whose body carries both a csrf pair and a vendor error, a concrete
rejected retried POST whose vendor-error body still yields the -2
unauthorized error, and a concrete accepted retried POST that adopts its
pair (pD, tD) and raises its vendor error (code 15, category w). -/
theorem claim6_witness :
    (((apiPost ⟨"admin", "pw", "aaaa"⟩ check_authorized ("p")
        ⟨true, some ⟨"p0", "t0"⟩, none, true,
          ServerResponse.ok { status := 404, text := some { err := some 9, errorCategory := some ("x") } } :: []⟩).out
        = Except.error (PyErr.api (some 9) (some ("x")))
      ∧ (apiPost ⟨"admin", "pw", "aaaa"⟩ check_authorized ("p")
        ⟨true, some ⟨"p0", "t0"⟩, none, true,
          ServerResponse.ok { status := 404, text := some { err := some 9, errorCategory := some ("x") } } :: []⟩).trace
        = [Event.acquireCall, Event.httpPost ("p") (some ⟨"p0", "t0"⟩) PostData.apiData,
           Event.releaseCall])
    ∧ (∃ t, (apiGet ⟨"admin", "pw", "aaaa"⟩ check_authorized ("p")
        ⟨true, some ⟨"p0", "t0"⟩, none, true,
          ServerResponse.ok { status := 404, text := some { err := some 9, errorCategory := some ("x") } }
            :: ServerResponse.ok { status := 200 } :: []⟩).trace
        = Event.acquireCall :: Event.httpGet ("p")
          :: Event.httpPost ("api/system/user_logout") (some ⟨"p0", "t0"⟩) PostData.logoutData :: t)
    ∧ ((apiGet ⟨"admin", "pw", "aaaa"⟩ check_authorized ("p")
        ⟨true, some ⟨"p0", "t0"⟩, none, true,
          ServerResponse.ok { status := 200, text := some { csrf_param := some ("pC"), csrf_token := some ("tC"), err := some 7, errorCategory := some ("y") } } :: []⟩).out
        = Except.error (PyErr.api (some 7) (some ("y")))
      ∧ (apiGet ⟨"admin", "pw", "aaaa"⟩ check_authorized ("p")
        ⟨true, some ⟨"p0", "t0"⟩, none, true,
          ServerResponse.ok { status := 200, text := some { csrf_param := some ("pC"), csrf_token := some ("tC"), err := some 7, errorCategory := some ("y") } } :: []⟩).st.active_csrf
        = some ⟨"pC", "tC"⟩)
    ∧ (apiPost ⟨"admin", "pw", "aaaa"⟩ check_authorized ("p")
        ⟨true, some ⟨"p0", "t0"⟩, none, true,
          ServerResponse.ok { status := 404 } :: ServerResponse.ok { status := 200 }
            :: ServerResponse.ok { status := 200, metaParam := some ("m1"), metaToken := some ("n1") }
            :: ServerResponse.ok { status := 200, text := some { csrf_param := some ("m2"), csrf_token := some ("n2"), servernonce := some ("bbbb"), salt := some ("00ff"), iterations := some 1 } }
            :: ServerResponse.ok { status := 200 }
            :: ServerResponse.ok { status := 404, text := some { err := some 13, errorCategory := some ("z") } } :: []⟩).out
        = Except.error (PyErr.api (some APICALL_ERRCODE_UNAUTHORIZED)
            (some APICALL_ERRCAT_UNAUTHORIZED))
    ∧ ((apiPost ⟨"admin", "pw", "aaaa"⟩ check_authorized ("p")
        ⟨true, some ⟨"p0", "t0"⟩, none, true,
          ServerResponse.ok { status := 404 } :: ServerResponse.ok { status := 200 }
            :: ServerResponse.ok { status := 200, metaParam := some ("m1"), metaToken := some ("n1") }
            :: ServerResponse.ok { status := 200, text := some { csrf_param := some ("m2"), csrf_token := some ("n2"), servernonce := some ("bbbb"), salt := some ("00ff"), iterations := some 1 } }
            :: ServerResponse.ok { status := 200 }
            :: ServerResponse.ok { status := 200, text := some { csrf_param := some ("pD"), csrf_token := some ("tD"), err := some 15, errorCategory := some ("w") } } :: []⟩).out
        = Except.error (PyErr.api (some 15) (some ("w")))
      ∧ (apiPost ⟨"admin", "pw", "aaaa"⟩ check_authorized ("p")
        ⟨true, some ⟨"p0", "t0"⟩, none, true,
          ServerResponse.ok { status := 404 } :: ServerResponse.ok { status := 200 }
            :: ServerResponse.ok { status := 200, metaParam := some ("m1"), metaToken := some ("n1") }
            :: ServerResponse.ok { status := 200, text := some { csrf_param := some ("m2"), csrf_token := some ("n2"), servernonce := some ("bbbb"), salt := some ("00ff"), iterations := some 1 } }
            :: ServerResponse.ok { status := 200 }
            :: ServerResponse.ok { status := 200, text := some { csrf_param := some ("pD"), csrf_token := some ("tD"), err := some 15, errorCategory := some ("w") } } :: []⟩).st.active_csrf
        = some ⟨"pD", "tD"⟩)) :=
  claim6_processing_order ⟨"admin", "pw", "aaaa"⟩ check_authorized check_authorized ("p")
    (some ⟨"p0", "t0"⟩) none
    { status := 404, text := some { err := some 9, errorCategory := some ("x") } }
    { status := 404, text := some { err := some 9, errorCategory := some ("x") } }
    { status := 200, text := some { csrf_param := some ("pC"), csrf_token := some ("tC"), err := some 7, errorCategory := some ("y") } }
    (ServerResponse.ok { status := 200 }) [] [] []
    (some 9) (some 7) ("x") ("y")
    { csrf_param := some ("pC"), csrf_token := some ("tC"), err := some 7, errorCategory := some ("y") }
    ("pC") ("tC")
    (by decide) (by decide) (by decide) (by decide) (by decide)
    (by decide) (by decide) (by decide) (by decide)
    { status := 404 } (ServerResponse.ok { status := 200 })
    { status := 200, metaParam := some ("m1"), metaToken := some ("n1") }
    { status := 200, text := some { csrf_param := some ("m2"), csrf_token := some ("n2"), servernonce := some ("bbbb"), salt := some ("00ff"), iterations := some 1 } }
    { status := 200 }
    { status := 404, text := some { err := some 13, errorCategory := some ("z") } }
    { status := 200, text := some { csrf_param := some ("pD"), csrf_token := some ("tD"), err := some 15, errorCategory := some ("w") } }
    [] [] ("m1") ("n1") ("m2") ("n2") ("bbbb") ("00ff") ("pD") ("tD")
    { csrf_param := some ("m2"), csrf_token := some ("n2"), servernonce := some ("bbbb"), salt := some ("00ff"), iterations := some 1 }
    { csrf_param := some ("pD"), csrf_token := some ("tD"), err := some 15, errorCategory := some ("w") }
    1 ("a628fa1c807df6b91f1600b92940a49aa84e54ff13b8523f5a37c8609c26f13b")
    (some 13) (some 15) ("z") ("w")
    (by decide) (by decide) (by decide) (by decide) (by decide) (by decide) (by decide)
    (by decide) (by decide) (by decide) (by decide) (by decide) (by decide) (by decide)
    (by decide) (by decide) (by decide) (by decide) (by decide) (by decide) (by decide)
    (by decide) (by decide) (by decide)

/-! Claim C7: the authentication error mapping. -/

/-- Outcomes the authenticate body can produce: normal return, an
ApiCallError, a general AuthenticationError, or some other Python
exception. -/
def PyOutcome {α : Type} (o : Except PyErr α) : Prop :=
  (∃ a, o = Except.ok a) ∨ (∃ c k, o = Except.error (PyErr.api c k))
    ∨ o = Except.error (PyErr.auth AUTH_FAILURE_GENERAL) ∨ o = Except.error PyErr.other

/-- Sequencing preserves the outcome characterization. -/
theorem step_PyOutcome {α β : Type} (r : RunResult α) (f : α → ApiState → RunResult β)
    (hr : PyOutcome r.out) (hf : ∀ a s, PyOutcome ((f a s).out)) :
    PyOutcome ((step r f).out) := by
  rcases hout : r.out with e | a
  · rw [hout] at hr
    rcases hr with ⟨a, ha⟩ | ⟨c, k, hck⟩ | h | h <;>
      simp_all [step, PyOutcome]
  · have := hf a r.st
    simp_all [step, PyOutcome]

/-- The error helper returns normally or raises an ApiCallError. -/
theorem handle_error_dict_PyOutcome (d : Option Body) :
    handle_error_dict d = Except.ok () ∨ ∃ c k, handle_error_dict d = Except.error (PyErr.api c k) := by
  unfold handle_error_dict handle_errcode
  repeat' split
  all_goals first
    | exact Or.inl rfl
    | exact Or.inr ⟨_, _, rfl⟩

/-- Raw GET returns a response or raises an ApiCallError. -/
theorem get_raw_PyOutcome (path : String) (st : ApiState) :
    PyOutcome ((get_raw path st).out) := by
  unfold get_raw throwE
  repeat' split
  all_goals first
    | exact Or.inl ⟨_, rfl⟩
    | exact Or.inr (Or.inl ⟨_, _, rfl⟩)

/-- Raw POST returns a response or raises an ApiCallError. -/
theorem post_raw_PyOutcome (path : String) (dtoCsrf : Option Csrf) (d : PostData) (st : ApiState) :
    PyOutcome ((post_raw path dtoCsrf d st).out) := by
  unfold post_raw throwE
  repeat' split
  all_goals first
    | exact Or.inl ⟨_, rfl⟩
    | exact Or.inr (Or.inl ⟨_, _, rfl⟩)

/-- The csrf bootstrap returns a flag, raises an ApiCallError, or raises
the AttributeError of a failed regex match. -/
theorem init_csrf_PyOutcome (st : ApiState) :
    PyOutcome ((init_csrf st).out) := by
  unfold init_csrf
  apply step_PyOutcome _ _ (get_raw_PyOutcome _ _)
  intro r s
  unfold ret throwE
  repeat' split
  all_goals first
    | exact Or.inl ⟨_, rfl⟩
    | exact Or.inr (Or.inl ⟨_, _, rfl⟩)
    | exact Or.inr (Or.inr (Or.inr rfl))

/-- The authenticate body (before its decorators) can only return
normally, raise an ApiCallError, raise a general AuthenticationError, or
raise some other Python exception - never an AuthenticationError with a
non-general reason. -/
theorem authenticate_inner_PyOutcome (cfg : Config) (st : ApiState) :
    PyOutcome ((authenticate_inner cfg st).out) := by
  unfold authenticate_inner
  apply step_PyOutcome _ _ (init_csrf_PyOutcome _)
  intro gotCsrf s1
  split
  · exact Or.inr (Or.inr (Or.inl rfl))
  · apply step_PyOutcome _ _ (post_raw_PyOutcome _ _ _ _)
    intro r s2
    split
    · exact Or.inr (Or.inr (Or.inl rfl))
    · try dsimp only
      rcases handle_error_dict_PyOutcome r.text with hed | ⟨c, k, hed⟩
      · rw [hed]
        try dsimp only
        rcases htext : r.text with _ | body
        · exact Or.inr (Or.inr (Or.inr rfl))
        · try dsimp only
          rcases hsn : body.servernonce with _ | sn
          · try dsimp only
            exact Or.inr (Or.inr (Or.inr rfl))
          · try dsimp only
            rcases hit : body.iterations with _ | it
            · try dsimp only
              exact Or.inr (Or.inr (Or.inr rfl))
            · try dsimp only
              rcases hsa : body.salt with _ | sa
              · try dsimp only
                exact Or.inr (Or.inr (Or.inr rfl))
              · try dsimp only
                rcases hcp : get_client_proof cfg.password sa it cfg.firstNonce sn with _ | cp
                · try dsimp only
                  exact Or.inr (Or.inr (Or.inr rfl))
                · try dsimp only
                  apply step_PyOutcome _ _ (post_raw_PyOutcome _ _ _ _)
                  intro r2 s3
                  split
                  · exact Or.inr (Or.inr (Or.inl rfl))
                  · try dsimp only
                    rcases handle_error_dict_PyOutcome r2.text with hed2 | ⟨c2, k2, hed2⟩
                    · rw [hed2]
                      try dsimp only
                      exact Or.inl ⟨_, rfl⟩
                    · rw [hed2]
                      try dsimp only
                      exact Or.inr (Or.inl ⟨_, _, rfl⟩)
      · rw [hed]
        try dsimp only
        exact Or.inr (Or.inl ⟨_, _, rfl⟩)

/-- C7: authenticate fails only with a typed AuthenticationError whose
reason is general, invalid credentials, invalid csrf or too many users;
an ApiCallError of category user_pass_err raised during the handshake
maps to invalid credentials, csrf_error to invalid csrf, the vendor
too-many-users category to too many users, any other ApiCallError
category to general, and any other unexpected exception (such as the
failed regex match of a missing csrf meta tag, or the KeyError of a
missing field in the nonce response, both modelled as PyErr.other) to
general. -/
theorem claim7_auth_error_mapping (cfg : Config) (st : ApiState) :
    ((authenticate cfg st).out = Except.ok ()
      ∨ ∃ rn, (authenticate cfg st).out = Except.error (PyErr.auth rn)
          ∧ (rn = AUTH_FAILURE_GENERAL ∨ rn = AUTH_FAILURE_CREDENTIALS ∨ rn = AUTH_FAILURE_CSRF
             ∨ rn = AUTH_FAILURE_TOO_MANY_USERS))
    ∧ (∀ c, (lock_auth (authenticate_inner cfg) st).out
          = Except.error (PyErr.api c (some APICALL_ERRCAT_CREDENTIALS))
        → (authenticate cfg st).out = Except.error (PyErr.auth AUTH_FAILURE_CREDENTIALS))
    ∧ (∀ c, (lock_auth (authenticate_inner cfg) st).out
          = Except.error (PyErr.api c (some APICALL_ERRCAT_CSRF))
        → (authenticate cfg st).out = Except.error (PyErr.auth AUTH_FAILURE_CSRF))
    ∧ (∀ c, (lock_auth (authenticate_inner cfg) st).out
          = Except.error (PyErr.api c (some APICALL_ERRCAT_TOO_MANY_USERS))
        → (authenticate cfg st).out = Except.error (PyErr.auth AUTH_FAILURE_TOO_MANY_USERS))
    ∧ (∀ c cat, (lock_auth (authenticate_inner cfg) st).out = Except.error (PyErr.api c cat)
        → cat ≠ some APICALL_ERRCAT_CREDENTIALS → cat ≠ some APICALL_ERRCAT_CSRF
        → cat ≠ some APICALL_ERRCAT_TOO_MANY_USERS
        → (authenticate cfg st).out = Except.error (PyErr.auth AUTH_FAILURE_GENERAL))
    ∧ ((lock_auth (authenticate_inner cfg) st).out = Except.error PyErr.other
        → (authenticate cfg st).out = Except.error (PyErr.auth AUTH_FAILURE_GENERAL)) := by
  refine ⟨?_, ?_, ?_, ?_, ?_, ?_⟩
  · rcases authenticate_inner_PyOutcome cfg st with ⟨a, ha⟩ | ⟨c, k, hck⟩ | h | h
    · exact Or.inl (by simp [authenticate, handle_auth_exception, lock_auth, ha])
    · refine Or.inr ?_
      by_cases h1 : k = some APICALL_ERRCAT_CREDENTIALS
      · exact ⟨AUTH_FAILURE_CREDENTIALS,
          by simp [authenticate, handle_auth_exception, lock_auth, hck, auth_exception_map, h1],
          Or.inr (Or.inl rfl)⟩
      · by_cases h2 : k = some APICALL_ERRCAT_CSRF
        · exact ⟨AUTH_FAILURE_CSRF,
            by simp [authenticate, handle_auth_exception, lock_auth, hck, auth_exception_map, h1, h2,
              APICALL_ERRCAT_CREDENTIALS, APICALL_ERRCAT_CSRF],
            Or.inr (Or.inr (Or.inl rfl))⟩
        · by_cases h3 : k = some APICALL_ERRCAT_TOO_MANY_USERS
          · exact ⟨AUTH_FAILURE_TOO_MANY_USERS,
              by simp [authenticate, handle_auth_exception, lock_auth, hck, auth_exception_map, h1, h2, h3,
                APICALL_ERRCAT_CREDENTIALS, APICALL_ERRCAT_CSRF, APICALL_ERRCAT_TOO_MANY_USERS],
              Or.inr (Or.inr (Or.inr rfl))⟩
          · exact ⟨AUTH_FAILURE_GENERAL,
              by simp [authenticate, handle_auth_exception, lock_auth, hck, auth_exception_map, h1, h2, h3],
              Or.inl rfl⟩
    · exact Or.inr ⟨AUTH_FAILURE_GENERAL,
        by simp [authenticate, handle_auth_exception, lock_auth, h, auth_exception_map],
        Or.inl rfl⟩
    · exact Or.inr ⟨AUTH_FAILURE_GENERAL,
        by simp [authenticate, handle_auth_exception, lock_auth, h, auth_exception_map],
        Or.inl rfl⟩
  · intro c h
    simp [authenticate, handle_auth_exception, h, auth_exception_map]
  · intro c h
    simp [authenticate, handle_auth_exception, h, auth_exception_map,
      APICALL_ERRCAT_CREDENTIALS, APICALL_ERRCAT_CSRF]
  · intro c h
    simp [authenticate, handle_auth_exception, h, auth_exception_map,
      APICALL_ERRCAT_CREDENTIALS, APICALL_ERRCAT_CSRF, APICALL_ERRCAT_TOO_MANY_USERS]
  · intro c cat h h1 h2 h3
    simp [authenticate, handle_auth_exception, h, auth_exception_map, h1, h2, h3]
  · intro h
    simp [authenticate, handle_auth_exception, h, auth_exception_map]

/-- C7 witness: a concrete handshake whose nonce response carries the
vendor error category user_pass_err raises an ApiCallError inside the
body and authenticate surfaces AuthenticationError with the invalid
credentials reason. -/
theorem claim7_witness :
    (authenticate ⟨"admin", "pw", "aaaa"⟩
        ⟨false, none, none, false,
          [ServerResponse.ok { status := 200, metaParam := some ("p1"), metaToken := some ("t1") },
           ServerResponse.ok { status := 200, text := some { err := some 1, errorCategory := some ("user_pass_err") } }]⟩).out
      = Except.error (PyErr.auth AUTH_FAILURE_CREDENTIALS) :=
  (claim7_auth_error_mapping ⟨"admin", "pw", "aaaa"⟩
    ⟨false, none, none, false,
      [ServerResponse.ok { status := 200, metaParam := some ("p1"), metaToken := some ("t1") },
       ServerResponse.ok { status := 200, text := some { err := some 1, errorCategory := some ("user_pass_err") } }]⟩).2.1
    (some 1) (by decide)

/-! Feature detection of client/utils.py (HuaweiFeaturesDetector). -/

/-- The features of client/classes.py. -/
inductive Feature where
  | nfc
  | url_filter
  | wifi_80211r
  | wifi_twt
  | wlan_filter
  | device_topology
  | guest_network
  | port_mapping
  | time_control
deriving DecidableEq, Repr

/-- Translation of the `unauthorized_as_false` decorator: an ApiCallError
of category unauthorized becomes the result false; everything else is
re-raised. -/
def unauthorized_as_false (r : Except PyErr Bool) : Except PyErr Bool :=
  match r with
  | Except.error (PyErr.api _ cat) =>
    if cat = some APICALL_ERRCAT_UNAUTHORIZED then Except.ok false
    else r
  | _ => r

/-- The probe order of `HuaweiFeaturesDetector.update`. -/
def featureProbeOrder : List Feature :=
  [Feature.nfc, Feature.wifi_80211r, Feature.wifi_twt, Feature.wlan_filter,
   Feature.device_topology, Feature.url_filter, Feature.guest_network, Feature.port_mapping]

/-- Sequential probing of `update` over a feature list: each probe body
(abstracted as its outcome, since each `_is_x_available` merely runs one
Get and checks a field) is run through unauthorized_as_false and, when
true, the feature is added to the available set. -/
def update_probe_list (probe : Feature → Except PyErr Bool) :
    List Feature → List Feature → Except PyErr (List Feature)
  | [], avail => Except.ok avail
  | f :: fs, avail =>
    match unauthorized_as_false (probe f) with
    | Except.ok true => update_probe_list probe fs (avail ++ [f])
    | Except.ok false => update_probe_list probe fs avail
    | Except.error e => Except.error e

/-- Translation of `HuaweiFeaturesDetector.update`. -/
def update (probe : Feature → Except PyErr Bool) (avail : List Feature) :
    Except PyErr (List Feature) :=
  update_probe_list probe featureProbeOrder avail

/-- Translation of `HuaweiFeaturesDetector.is_available`. -/
def is_available (avail : List Feature) (f : Feature) : Bool :=
  avail.contains f

/-- Membership in the probing result: a feature is available only when it
was available before or its probe body returned true. -/
theorem update_probe_list_mem (probe : Feature → Except PyErr Bool)
    (fs : List Feature) (avail res : List Feature) (f : Feature)
    (h : update_probe_list probe fs avail = Except.ok res) (hf : f ∈ res) :
    f ∈ avail ∨ unauthorized_as_false (probe f) = Except.ok true := by
  induction fs generalizing avail with
  | nil =>
    simp [update_probe_list] at h
    subst h
    exact Or.inl hf
  | cons g gs ih =>
    unfold update_probe_list at h
    rcases hg : unauthorized_as_false (probe g) with e | b
    · rw [hg] at h
      cases h
    · rcases b with _ | _
      · rw [hg] at h
        exact ih _ h
      · rw [hg] at h
        rcases ih _ h with hmem | hok
        · rcases List.mem_append.mp hmem with hm | hm
          · exact Or.inl hm
          · simp at hm
            subst hm
            exact Or.inr hg
        · exact Or.inr hok

/-- The probing loop completes when every probe resolves to a boolean or
an unauthorized error. -/
theorem update_probe_list_total (probe : Feature → Except PyErr Bool)
    (fs : List Feature) (avail : List Feature)
    (h : ∀ f, f ∈ fs → (∃ b, probe f = Except.ok b)
        ∨ (∃ c, probe f = Except.error (PyErr.api c (some APICALL_ERRCAT_UNAUTHORIZED)))) :
    ∃ res, update_probe_list probe fs avail = Except.ok res := by
  induction fs generalizing avail with
  | nil => exact ⟨avail, rfl⟩
  | cons g gs ih =>
    have hg := h g (by simp)
    have hrest : ∀ f, f ∈ gs → (∃ b, probe f = Except.ok b)
        ∨ (∃ c, probe f = Except.error (PyErr.api c (some APICALL_ERRCAT_UNAUTHORIZED))) :=
      fun f hf => h f (by simp [hf])
    rcases hg with ⟨b, hb⟩ | ⟨c, hc⟩
    · rcases b with _ | _
      · obtain ⟨res, hres⟩ := ih avail hrest
        exact ⟨res, by simp [update_probe_list, unauthorized_as_false, hb, hres]⟩
      · obtain ⟨res, hres⟩ := ih (avail ++ [g]) hrest
        exact ⟨res, by simp [update_probe_list, unauthorized_as_false, hb, hres]⟩
    · obtain ⟨res, hres⟩ := ih avail hrest
      exact ⟨res, by simp [update_probe_list, unauthorized_as_false, hc, hres]⟩

/-! Claim C9: unauthorized probes mean unavailable. -/

/-- C9: a feature-detection probe whose underlying Get raises
ApiCallError with category unauthorized is swallowed and returns false,
so after a successful update the feature is not available; any other
error category propagates out of the probe; and detection succeeds
whenever every probe resolves normally or with an unauthorized error.
Elsewhere the request executor surfaces the unauthorized category: its
retry wrapper re-raises every non-csrf ApiCallError unchanged. -/
theorem claim9_probe_unauthorized
    (probe : Feature → Except PyErr Bool) (avail res : List Feature)
    (f : Feature) (c : Option Int) (e : PyErr)
    (g : ApiState → RunResult (Option Body)) (st : ApiState)
    (code : Option Int) (cat : Option String)
    (hprobe : probe f = Except.error (PyErr.api c (some APICALL_ERRCAT_UNAUTHORIZED)))
    (hupd : update probe avail = Except.ok res)
    (hnotin : f ∉ avail)
    (hne : ∀ c2, e ≠ PyErr.api c2 (some APICALL_ERRCAT_UNAUTHORIZED))
    (hout : (g st).out = Except.error (PyErr.api code cat))
    (hcsrf : cat ≠ some APICALL_ERRCAT_CSRF) :
    unauthorized_as_false (probe f) = Except.ok false
    ∧ is_available res f = false
    ∧ unauthorized_as_false (Except.error e) = Except.error e
    ∧ (∀ (probe2 : Feature → Except PyErr Bool) (avail2 : List Feature),
        (∀ f2, f2 ∈ featureProbeOrder → (∃ b, probe2 f2 = Except.ok b)
          ∨ (∃ c2, probe2 f2 = Except.error (PyErr.api c2 (some APICALL_ERRCAT_UNAUTHORIZED))))
        → ∃ res2, update probe2 avail2 = Except.ok res2)
    ∧ (retry_on_csrf_error g st).out = Except.error (PyErr.api code cat) := by
  refine ⟨?_, ?_, ?_, ?_, ?_⟩
  · simp [unauthorized_as_false, hprobe]
  · rcases hmem : is_available res f with _ | _
    · rfl
    · exfalso
      have : f ∈ res := by simpa [is_available] using hmem
      rcases update_probe_list_mem probe featureProbeOrder avail res f hupd this with hm | hok
      · exact hnotin hm
      · simp [unauthorized_as_false, hprobe] at hok
  · rcases e with ⟨c2, cat2⟩ | r | _
    · have := hne c2
      simp [unauthorized_as_false]
      intro hcat2
      subst hcat2
      exact absurd rfl this
    · simp [unauthorized_as_false]
    · simp [unauthorized_as_false]
  · intro probe2 avail2 hall
    exact update_probe_list_total probe2 featureProbeOrder avail2 hall
  · simp [retry_on_csrf_error, hout, hcsrf]

/-- C9 witness: a concrete probe assignment where the NFC probe is
unauthorized, the port-mapping probe returns true and every other probe
returns false; update succeeds with only port mapping available, NFC is
unavailable, a concrete auth error passes the wrapper unchanged, and a
concrete non-csrf ApiCallError propagates through the executor's retry
wrapper. -/
theorem claim9_witness :
    unauthorized_as_false
        ((fun f => if f = Feature.nfc
            then Except.error (PyErr.api (some (-2)) (some APICALL_ERRCAT_UNAUTHORIZED))
            else Except.ok (f == Feature.port_mapping)) Feature.nfc)
      = Except.ok false
    ∧ is_available [Feature.port_mapping] Feature.nfc = false
    ∧ unauthorized_as_false (Except.error (PyErr.auth ("auth_general")))
      = Except.error (PyErr.auth ("auth_general"))
    ∧ (∀ (probe2 : Feature → Except PyErr Bool) (avail2 : List Feature),
        (∀ f2, f2 ∈ featureProbeOrder → (∃ b, probe2 f2 = Except.ok b)
          ∨ (∃ c2, probe2 f2 = Except.error (PyErr.api c2 (some APICALL_ERRCAT_UNAUTHORIZED))))
        → ∃ res2, update probe2 avail2 = Except.ok res2)
    ∧ (retry_on_csrf_error
        (fun s => lock_call (get_inner ⟨"admin", "pw", "aaaa"⟩ check_authorized ("p")) s)
        ⟨false, none, none, true, []⟩).out
      = Except.error (PyErr.api (some (-3)) (some ("request_error"))) :=
  claim9_probe_unauthorized
    (fun f => if f = Feature.nfc
        then Except.error (PyErr.api (some (-2)) (some APICALL_ERRCAT_UNAUTHORIZED))
        else Except.ok (f == Feature.port_mapping))
    [] [Feature.port_mapping]
    Feature.nfc (some (-2)) (PyErr.auth ("auth_general"))
    (fun s => lock_call (get_inner ⟨"admin", "pw", "aaaa"⟩ check_authorized ("p")) s)
    ⟨false, none, none, true, []⟩ (some (-3)) (some ("request_error"))
    (by decide) (by decide) (by decide)
    (by intro c2; simp) (by decide) (by decide)

/-! The generic changes watcher of utils.py (HuaweiChangesWatcher),
with Python dicts modelled as association lists in insertion order and
unique keys. -/

/-- Python dict lookup. -/
def dict_get {K I : Type} [DecidableEq K] : List (K × I) → K → Option I
  | [], _ => none
  | (k, v) :: rest, key => if k = key then some v else dict_get rest key

/-- Python dict assignment: replace in place or append. -/
def dict_set {K I : Type} [DecidableEq K] : List (K × I) → K → I → List (K × I)
  | [], key, v => [(key, v)]
  | (k, w) :: rest, key, v =>
    if k = key then (key, v) :: rest else (k, w) :: dict_set rest key v

/-- Python dict.pop(key, None). -/
def dict_pop {K I : Type} [DecidableEq K] : List (K × I) → K → List (K × I)
  | [], _ => []
  | (k, w) :: rest, key => if k = key then rest else (k, w) :: dict_pop rest key

/-- The predicate-filtered current snapshot keyed by the identity
extractor (the actual_items dict of `_get_difference`). -/
def actual_items_of {K I : Type} [DecidableEq K] (pred : I → Bool) (get_key : I → K)
    (actual : List I) : List (K × I) :=
  actual.foldl (fun d item => if pred item then dict_set d (get_key item) item else d) []

/-- One step of the first loop of `_get_difference`: keys already known
are skipped (`continue`), new keys are inserted and recorded as added. -/
def add_step {K I : Type} [DecidableEq K] (acc : List (K × I) × List (K × I)) (kv : K × I) :
    List (K × I) × List (K × I) :=
  if (dict_get acc.1 kv.1).isSome then acc else (dict_set acc.1 kv.1 kv.2, acc.2 ++ [kv])

/-- One step of the missing-items loop: remembered entries whose key is
absent from the current snapshot are collected. -/
def miss_step {K I : Type} [DecidableEq K] (actual_items : List (K × I))
    (acc : List (K × I)) (kv : K × I) : List (K × I) :=
  if (dict_get actual_items kv.1).isSome then acc else acc ++ [kv]

/-- One step of the removal loop: pop the key from memory and record the
removed entry. -/
def pop_step {K I : Type} [DecidableEq K] (acc : List (K × I) × List (K × I)) (kv : K × I) :
    List (K × I) × List (K × I) :=
  (dict_pop acc.1 kv.1, acc.2 ++ [kv])

/-- Translation of `HuaweiChangesWatcher._get_difference`: returns
(added, removed, new memory).  The EntityRegistry handle attached to each
removed entry is an external collaborator and is not modelled. -/
def get_difference {K I : Type} [DecidableEq K] (pred : I → Bool) (get_key : I → K)
    (actual : List I) (known : List (K × I)) :
    List (K × I) × List (K × I) × List (K × I) :=
  let actual_items := actual_items_of pred get_key actual
  let p1 := actual_items.foldl add_step (known, ([] : List (K × I)))
  let missing := p1.1.foldl (miss_step actual_items) ([] : List (K × I))
  let p2 := missing.foldl pop_step (p1.1, ([] : List (K × I)))
  (p1.2, p2.2, p2.1)

/-- Left-biased choice on options (Python `dict.get` fallback shape). -/
def opt_or {α : Type} : Option α → Option α → Option α
  | some x, _ => some x
  | none, o => o

/-- Lookup after assignment. -/
theorem dict_get_set {K I : Type} [DecidableEq K] (d : List (K × I)) (k : K) (v : I) (k2 : K) :
    dict_get (dict_set d k v) k2 = if k = k2 then some v else dict_get d k2 := by
  induction d with
  | nil => simp [dict_set, dict_get]
  | cons kv rest ih =>
    obtain ⟨k1, v1⟩ := kv
    by_cases h1 : k1 = k
    · subst h1
      by_cases h2 : k1 = k2 <;> simp [dict_set, dict_get, h2]
    · by_cases h2 : k1 = k2
      · subst h2
        simp [dict_set, dict_get, h1, Ne.symm h1]
      · simp [dict_set, dict_get, h1, h2, ih]

/-- Assigning an absent key appends. -/
theorem dict_set_absent {K I : Type} [DecidableEq K] (d : List (K × I)) (k : K) (v : I)
    (h : dict_get d k = none) : dict_set d k v = d ++ [(k, v)] := by
  induction d with
  | nil => simp [dict_set]
  | cons kv rest ih =>
    obtain ⟨k1, v1⟩ := kv
    by_cases h1 : k1 = k
    · subst h1
      simp [dict_get] at h
    · simp [dict_get, h1] at h
      simp [dict_set, h1, ih h]

/-- A key is absent exactly when lookup returns none. -/
theorem dict_get_eq_none_iff {K I : Type} [DecidableEq K] (d : List (K × I)) (k : K) :
    dict_get d k = none ↔ k ∉ d.map Prod.fst := by
  induction d with
  | nil => simp [dict_get]
  | cons kv rest ih =>
    obtain ⟨k1, v1⟩ := kv
    by_cases h1 : k1 = k
    · subst h1
      simp [dict_get]
    · simp [dict_get, h1, ih, Ne.symm h1]

/-- A stored pair has a some lookup. -/
theorem dict_get_isSome_of_mem {K I : Type} [DecidableEq K] (d : List (K × I)) (k : K) (v : I)
    (h : (k, v) ∈ d) : (dict_get d k).isSome := by
  induction d with
  | nil => simp at h
  | cons kv rest ih =>
    obtain ⟨k1, v1⟩ := kv
    by_cases h1 : k1 = k
    · simp [dict_get, h1]
    · simp [dict_get, h1]
      rcases List.mem_cons.mp h with heq | hmem
      · cases heq
        exact absurd rfl h1
      · exact ih hmem

/-- A present key names a stored pair. -/
theorem exists_mem_of_key_mem {K I : Type} [DecidableEq K] (d : List (K × I)) (k : K)
    (h : k ∈ d.map Prod.fst) : ∃ v, (k, v) ∈ d := by
  rcases List.mem_map.mp h with ⟨⟨k1, v1⟩, hmem, hk⟩
  have hk1 : k1 = k := hk
  subst hk1
  exact ⟨v1, hmem⟩

/-- Assignment of a present key leaves the key list unchanged. -/
theorem dict_set_keys_of_present {K I : Type} [DecidableEq K] (d : List (K × I)) (k : K) (v : I)
    (h : (dict_get d k).isSome) :
    (dict_set d k v).map Prod.fst = d.map Prod.fst := by
  induction d with
  | nil => simp [dict_get] at h
  | cons kv rest ih =>
    obtain ⟨k1, v1⟩ := kv
    by_cases h1 : k1 = k
    · subst h1
      simp [dict_set]
    · simp [dict_get, h1] at h
      simp [dict_set, h1, ih h]

/-- Assignment preserves key uniqueness. -/
theorem dict_set_nodup {K I : Type} [DecidableEq K] (d : List (K × I)) (k : K) (v : I)
    (h : (d.map Prod.fst).Nodup) : ((dict_set d k v).map Prod.fst).Nodup := by
  rcases hg : dict_get d k with _ | w
  · rw [dict_set_absent d k v hg]
    simp only [List.map_append, List.map_cons, List.map_nil]
    rw [List.nodup_append]
    refine ⟨h, List.nodup_singleton k, ?_⟩
    intro a ha hb
    simp only [List.mem_singleton] at hb
    exact (dict_get_eq_none_iff d k).mp hg (hb ▸ ha)
  · rw [dict_set_keys_of_present d k v (by simp [hg])]
    exact h

/-- Popping preserves key uniqueness (the keys form a sublist). -/
theorem dict_pop_keys_sublist {K I : Type} [DecidableEq K] (d : List (K × I)) (k : K) :
    ((dict_pop d k).map Prod.fst).Sublist (d.map Prod.fst) := by
  induction d with
  | nil => simp [dict_pop]
  | cons kv rest ih =>
    obtain ⟨k1, v1⟩ := kv
    by_cases h1 : k1 = k
    · simp [dict_pop, h1]
    · simp only [dict_pop, if_neg h1, List.map_cons]
      exact List.Sublist.cons₂ _ ih

/-- Lookup after popping, under unique keys. -/
theorem dict_get_pop {K I : Type} [DecidableEq K] (d : List (K × I)) (k : K) (k2 : K)
    (h : (d.map Prod.fst).Nodup) :
    dict_get (dict_pop d k) k2 = if k = k2 then none else dict_get d k2 := by
  induction d with
  | nil => simp [dict_pop, dict_get]
  | cons kv rest ih =>
    obtain ⟨k1, v1⟩ := kv
    simp only [List.map_cons, List.nodup_cons] at h
    by_cases h1 : k1 = k
    · subst h1
      by_cases h2 : k1 = k2
      · subst h2
        simp [dict_pop, dict_get, (dict_get_eq_none_iff rest k1).mpr h.1]
      · simp [dict_pop, dict_get, h2]
    · by_cases h2 : k1 = k2
      · subst h2
        simp [dict_pop, dict_get, h1, Ne.symm h1]
      · simp [dict_pop, dict_get, h1, h2, ih h.2]

/-- The first loop appends exactly the filtered-snapshot entries whose key
is not yet remembered, both to the memory dict and to the added list. -/
theorem add_fold_spec {K I : Type} [DecidableEq K] (items : List (K × I))
    (hnd : (items.map Prod.fst).Nodup) :
    ∀ (d a : List (K × I)),
      items.foldl add_step (d, a)
        = (d ++ items.filter (fun kv => (dict_get d kv.1).isNone),
           a ++ items.filter (fun kv => (dict_get d kv.1).isNone)) := by
  induction items with
  | nil => intro d a; simp
  | cons kv rest ih =>
    obtain ⟨k, v⟩ := kv
    simp only [List.map_cons, List.nodup_cons] at hnd
    intro d a
    rcases hg : dict_get d k with _ | w
    · have hstep : add_step (d, a) (k, v) = (dict_set d k v, a ++ [(k, v)]) := by
        simp [add_step, hg]
      rw [List.foldl_cons, hstep, ih hnd.2]
      have hcong : rest.filter (fun kv => (dict_get (dict_set d k v) kv.1).isNone)
          = rest.filter (fun kv => (dict_get d kv.1).isNone) := by
        apply List.filter_congr
        intro x hx
        have hxk : x.1 ≠ k := by
          intro hcontra
          exact hnd.1 (hcontra ▸ (List.mem_map.mpr ⟨x, hx, rfl⟩))
        rw [dict_get_set, if_neg (fun hh => hxk hh.symm)]
      rw [hcong, dict_set_absent d k v hg]
      simp [List.filter_cons, hg, List.append_assoc]
    · have hstep : add_step (d, a) (k, v) = (d, a) := by simp [add_step, hg]
      rw [List.foldl_cons, hstep, ih hnd.2]
      simp [List.filter_cons, hg]

/-- Pointwise reading of the memory dict after the first loop: the old
binding wins, the snapshot binding fills the gaps. -/
theorem add_fold_dict {K I : Type} [DecidableEq K] (items : List (K × I)) :
    ∀ (d a : List (K × I)) (k2 : K),
      dict_get ((items.foldl add_step (d, a)).1) k2
        = opt_or (dict_get d k2) (dict_get items k2) := by
  induction items with
  | nil =>
    intro d a k2
    rcases h0 : dict_get d k2 with _ | w <;> simp [dict_get, opt_or, h0]
  | cons kv rest ih =>
    obtain ⟨k, v⟩ := kv
    intro d a k2
    rcases hg : dict_get d k with _ | w
    · have hstep : add_step (d, a) (k, v) = (dict_set d k v, a ++ [(k, v)]) := by
        simp [add_step, hg]
      rw [List.foldl_cons, hstep, ih, dict_get_set]
      by_cases hk : k = k2
      · subst hk
        simp [dict_get, opt_or, hg]
      · simp [dict_get, opt_or, hk]
    · have hstep : add_step (d, a) (k, v) = (d, a) := by simp [add_step, hg]
      rw [List.foldl_cons, hstep, ih]
      by_cases hk : k = k2
      · subst hk
        simp [dict_get, opt_or, hg]
      · simp [dict_get, hk]

/-- The first loop keeps the memory keys unique. -/
theorem add_fold_nodup {K I : Type} [DecidableEq K] (items : List (K × I)) :
    ∀ (d a : List (K × I)), ((d.map Prod.fst).Nodup) →
      (((items.foldl add_step (d, a)).1.map Prod.fst)).Nodup := by
  induction items with
  | nil => intro d a h; simpa using h
  | cons kv rest ih =>
    obtain ⟨k, v⟩ := kv
    intro d a h
    rcases hg : dict_get d k with _ | w
    · have hstep : add_step (d, a) (k, v) = (dict_set d k v, a ++ [(k, v)]) := by
        simp [add_step, hg]
      rw [List.foldl_cons, hstep]
      exact ih _ _ (dict_set_nodup d k v h)
    · have hstep : add_step (d, a) (k, v) = (d, a) := by simp [add_step, hg]
      rw [List.foldl_cons, hstep]
      exact ih _ _ h

/-- The snapshot-building loop keeps keys unique. -/
theorem snapshot_fold_nodup {K I : Type} [DecidableEq K] (pred : I → Bool) (get_key : I → K) :
    ∀ (l : List I) (d : List (K × I)), ((d.map Prod.fst).Nodup) →
      (((l.foldl (fun d item => if pred item then dict_set d (get_key item) item else d) d).map
          Prod.fst)).Nodup := by
  intro l
  induction l with
  | nil => intro d h; simpa using h
  | cons x rest ih =>
    intro d h
    rw [List.foldl_cons]
    cases hp : pred x
    · simp only [hp, Bool.false_eq_true, if_false]
      exact ih _ h
    · simp only [hp, if_true]
      exact ih _ (dict_set_nodup d (get_key x) x h)

/-- The filtered snapshot has unique keys. -/
theorem actual_items_nodup {K I : Type} [DecidableEq K] (pred : I → Bool) (get_key : I → K)
    (actual : List I) : (((actual_items_of pred get_key actual).map Prod.fst)).Nodup := by
  unfold actual_items_of
  exact snapshot_fold_nodup pred get_key actual [] (by simp)

/-- The missing-items loop is a filter. -/
theorem miss_fold_spec {K I : Type} [DecidableEq K] (A : List (K × I)) :
    ∀ (l acc : List (K × I)),
      l.foldl (miss_step A) acc = acc ++ l.filter (fun kv => (dict_get A kv.1).isNone) := by
  intro l
  induction l with
  | nil => intro acc; simp
  | cons kv rest ih =>
    intro acc
    rw [List.foldl_cons]
    rcases hg : dict_get A kv.1 with _ | w
    · have hstep : miss_step A acc kv = acc ++ [kv] := by simp [miss_step, hg]
      rw [hstep, ih]
      simp [List.filter_cons, hg]
    · have hstep : miss_step A acc kv = acc := by simp [miss_step, hg]
      rw [hstep, ih]
      simp [List.filter_cons, hg]

/-- The removal loop reports exactly the missing entries, in order. -/
theorem pop_fold_removed {K I : Type} [DecidableEq K] :
    ∀ (l d a : List (K × I)), (l.foldl pop_step (d, a)).2 = a ++ l := by
  intro l
  induction l with
  | nil => intro d a; simp
  | cons kv rest ih =>
    intro d a
    rw [List.foldl_cons]
    have hstep : pop_step (d, a) kv = (dict_pop d kv.1, a ++ [kv]) := rfl
    rw [hstep, ih]
    simp

/-- Pointwise reading of memory after the removal loop. -/
theorem pop_fold_dict {K I : Type} [DecidableEq K] :
    ∀ (l d a : List (K × I)) (k2 : K), ((d.map Prod.fst).Nodup) →
      dict_get ((l.foldl pop_step (d, a)).1) k2
        = if k2 ∈ l.map Prod.fst then none else dict_get d k2 := by
  intro l
  induction l with
  | nil => intro d a k2 h; simp
  | cons kv rest ih =>
    intro d a k2 h
    rw [List.foldl_cons]
    have hstep : pop_step (d, a) kv = (dict_pop d kv.1, a ++ [kv]) := rfl
    have hnd2 : ((dict_pop d kv.1).map Prod.fst).Nodup :=
      (dict_pop_keys_sublist d kv.1).nodup h
    rw [hstep, ih _ _ _ hnd2, dict_get_pop d kv.1 k2 h]
    by_cases h1 : k2 ∈ rest.map Prod.fst
    · simp [h1]
    · by_cases h2 : kv.1 = k2
      · simp [h1, h2]
      · simp [h1, h2, Ne.symm h2]

/-- The first loop is the identity when every snapshot key is already
remembered. -/
theorem add_fold_id {K I : Type} [DecidableEq K] :
    ∀ (items d a : List (K × I)), (∀ kv ∈ items, (dict_get d kv.1).isSome) →
      items.foldl add_step (d, a) = (d, a) := by
  intro items
  induction items with
  | nil => intro d a _; simp
  | cons kv rest ih =>
    intro d a h
    rw [List.foldl_cons]
    have hstep : add_step (d, a) kv = (d, a) := by
      simp [add_step, h kv (List.mem_cons_self kv rest)]
    rw [hstep]
    exact ih d a (fun x hx => h x (List.mem_cons_of_mem kv hx))

/-- `added` is exactly the filtered-snapshot entries with unremembered keys. -/
theorem get_difference_added {K I : Type} [DecidableEq K] (pred : I → Bool) (get_key : I → K)
    (actual : List I) (known : List (K × I)) :
    (get_difference pred get_key actual known).1
      = (actual_items_of pred get_key actual).filter
          (fun kv => (dict_get known kv.1).isNone) := by
  have h := add_fold_spec (actual_items_of pred get_key actual)
      (actual_items_nodup pred get_key actual) known []
  simp only [get_difference, h, List.nil_append]

/-- `removed` is exactly the remembered entries whose key left the
filtered snapshot. -/
theorem get_difference_removed {K I : Type} [DecidableEq K] (pred : I → Bool) (get_key : I → K)
    (actual : List I) (known : List (K × I)) :
    (get_difference pred get_key actual known).2.1
      = known.filter
          (fun kv => (dict_get (actual_items_of pred get_key actual) kv.1).isNone) := by
  have h1 := add_fold_spec (actual_items_of pred get_key actual)
      (actual_items_nodup pred get_key actual) known []
  simp only [get_difference, h1]
  rw [pop_fold_removed, miss_fold_spec]
  simp only [List.nil_append, List.filter_append]
  have hF : ((actual_items_of pred get_key actual).filter
      (fun kv => (dict_get known kv.1).isNone)).filter
      (fun kv => (dict_get (actual_items_of pred get_key actual) kv.1).isNone) = [] := by
    rw [List.filter_eq_nil_iff]
    intro kv hkv
    have hmem : kv ∈ actual_items_of pred get_key actual := List.mem_of_mem_filter hkv
    obtain ⟨k, v⟩ := kv
    have hs := dict_get_isSome_of_mem _ k v hmem
    rcases heq : dict_get (actual_items_of pred get_key actual) k with _ | w
    · rw [heq] at hs
      simp at hs
    · simp [heq]
  rw [hF, List.append_nil]

/-- After the missing/removal loops, a key survives in memory iff it is in
the snapshot, with its pre-loop binding. -/
theorem pipeline_final {K I : Type} [DecidableEq K] (A d1 : List (K × I)) (k : K)
    (hnd1 : (d1.map Prod.fst).Nodup) :
    dict_get (((d1.foldl (miss_step A) ([] : List (K × I))).foldl pop_step
        (d1, ([] : List (K × I)))).1) k
      = if (dict_get A k).isSome then dict_get d1 k else none := by
  rw [miss_fold_spec, List.nil_append, pop_fold_dict _ _ _ _ hnd1]
  rcases hA : dict_get A k with _ | w
  · simp only [Option.isSome_none, Bool.false_eq_true, if_false]
    by_cases hk : k ∈ (d1.filter (fun kv => (dict_get A kv.1).isNone)).map Prod.fst
    · simp [hk]
    · rw [if_neg hk, dict_get_eq_none_iff]
      intro hmem
      apply hk
      obtain ⟨v, hv⟩ := exists_mem_of_key_mem d1 k hmem
      apply List.mem_map.mpr
      refine ⟨(k, v), ?_, rfl⟩
      apply List.mem_filter.mpr
      exact ⟨hv, by simp [hA]⟩
  · simp only [Option.isSome_some, if_true]
    rw [if_neg]
    intro hk
    obtain ⟨v, hv⟩ := exists_mem_of_key_mem _ k hk
    have hboth := List.mem_filter.mp hv
    simp [hA] at hboth

/-- Pointwise reading of the memory dict after one reconciliation: keys
absent from the filtered snapshot are gone; surviving keys keep the OLD
remembered item when one existed, and take the snapshot item otherwise. -/
theorem get_difference_final {K I : Type} [DecidableEq K] (pred : I → Bool) (get_key : I → K)
    (actual : List I) (known : List (K × I)) (hnd : (known.map Prod.fst).Nodup) (k : K) :
    dict_get (get_difference pred get_key actual known).2.2 k
      = if (dict_get (actual_items_of pred get_key actual) k).isSome
        then opt_or (dict_get known k) (dict_get (actual_items_of pred get_key actual) k)
        else none := by
  have hnd1 := add_fold_nodup (actual_items_of pred get_key actual) known [] hnd
  have hd1 := add_fold_dict (actual_items_of pred get_key actual) known [] k
  simp only [get_difference]
  rw [pipeline_final _ _ k hnd1, hd1]

/-- A reconciliation on a memory already agreeing with the snapshot keys
reports nothing and leaves memory untouched. -/
theorem get_difference_stable {K I : Type} [DecidableEq K] (pred : I → Bool) (get_key : I → K)
    (actual : List I) (M : List (K × I))
    (h1 : ∀ kv ∈ actual_items_of pred get_key actual, (dict_get M kv.1).isSome)
    (h2 : ∀ kv ∈ M, (dict_get (actual_items_of pred get_key actual) kv.1).isSome) :
    get_difference pred get_key actual M = ([], [], M) := by
  simp only [get_difference]
  rw [add_fold_id _ _ _ h1]
  rw [miss_fold_spec, List.nil_append]
  have hnil : M.filter
      (fun kv => (dict_get (actual_items_of pred get_key actual) kv.1).isNone) = [] := by
    rw [List.filter_eq_nil_iff]
    intro kv hkv
    have hs := h2 kv hkv
    rcases heq : dict_get (actual_items_of pred get_key actual) kv.1 with _ | w
    · rw [heq] at hs
      simp at hs
    · simp [heq]
  rw [hnil]
  simp

/-- Immediately repeating the reconciliation with an unchanged snapshot
yields two empty lists and the same memory. -/
theorem get_difference_idem {K I : Type} [DecidableEq K] (pred : I → Bool) (get_key : I → K)
    (actual : List I) (known : List (K × I)) (hnd : (known.map Prod.fst).Nodup) :
    get_difference pred get_key actual (get_difference pred get_key actual known).2.2
      = ([], [], (get_difference pred get_key actual known).2.2) := by
  apply get_difference_stable
  · intro kv hm
    obtain ⟨k, v⟩ := kv
    have hs : (dict_get (actual_items_of pred get_key actual) k).isSome :=
      dict_get_isSome_of_mem _ k v hm
    rw [get_difference_final pred get_key actual known hnd k, if_pos hs]
    rcases h0 : dict_get known k with _ | w
    · simpa [opt_or] using hs
    · simp [opt_or]
  · intro kv hm
    obtain ⟨k, v⟩ := kv
    have hs : (dict_get (get_difference pred get_key actual known).2.2 k).isSome :=
      dict_get_isSome_of_mem _ k v hm
    rw [get_difference_final pred get_key actual known hnd k] at hs
    rcases hA0 : dict_get (actual_items_of pred get_key actual) k with _ | w
    · rw [hA0] at hs
      simp at hs
    · simp [hA0]

/-- C8 (counterexample): the spec says one reconciliation leaves memory
equal to the predicate-filtered snapshot, for EVERY memory and snapshot.
Not so when an item mutates under a persisting key: with memory
{0 ↦ (0, 1)} and snapshot item (0, 2) (key extractor Prod.fst, predicate
always true), `_get_difference` reports nothing added or removed and memory
keeps the stale item (0, 1), while the filtered snapshot holds (0, 2). -/
theorem claim8_counterexample :
    get_difference (fun _ => true) Prod.fst [((0 : Nat), (2 : Nat))]
        [((0 : Nat), ((0 : Nat), (1 : Nat)))]
      = ([], [], [(0, (0, 1))])
    ∧ actual_items_of (fun _ => true) Prod.fst [((0 : Nat), (2 : Nat))] = [(0, (0, 2))]
    ∧ ([((0 : Nat), ((0 : Nat), (1 : Nat)))] : List (Nat × (Nat × Nat))) ≠ [(0, (0, 2))] := by
  refine ⟨?_, ?_, ?_⟩ <;> decide

/-- C8 (amended): for a memory with unique keys, one call of
`HuaweiChangesWatcher._get_difference` returns added = exactly the
filtered-snapshot entries whose key is absent from memory, removed =
exactly the remembered entries whose key is absent from the filtered
snapshot, and leaves memory holding exactly the filtered-snapshot keys —
but a key that was already remembered keeps its OLD item rather than the
snapshot item (so memory need not equal the filtered snapshot); an
immediately repeated call with the same snapshot reports two empty lists
and leaves memory unchanged. -/
theorem claim8_reconciler {K I : Type} [DecidableEq K] (pred : I → Bool) (get_key : I → K)
    (actual : List I) (known : List (K × I)) (hnd : (known.map Prod.fst).Nodup) :
    (get_difference pred get_key actual known).1
      = (actual_items_of pred get_key actual).filter
          (fun kv => (dict_get known kv.1).isNone)
    ∧ (get_difference pred get_key actual known).2.1
      = known.filter
          (fun kv => (dict_get (actual_items_of pred get_key actual) kv.1).isNone)
    ∧ (∀ k : K, dict_get (get_difference pred get_key actual known).2.2 k
        = if (dict_get (actual_items_of pred get_key actual) k).isSome
          then opt_or (dict_get known k) (dict_get (actual_items_of pred get_key actual) k)
          else none)
    ∧ get_difference pred get_key actual (get_difference pred get_key actual known).2.2
      = ([], [], (get_difference pred get_key actual known).2.2) :=
  ⟨get_difference_added pred get_key actual known,
   get_difference_removed pred get_key actual known,
   fun k => get_difference_final pred get_key actual known hnd k,
   get_difference_idem pred get_key actual known hnd⟩

/-- C8 witness: the {A,B} → {B,C} instance of the claim (A = 1, B = 2,
C = 3, identity keys): added = [(3,3)], removed = [(1,1)], memory ends
with exactly the keys {2,3}, and the repeated call is silent. -/
theorem claim8_witness :
    (([(1, 1), (2, 2)] : List (Nat × Nat)).map Prod.fst).Nodup
    ∧ (get_difference (fun _ => true) (fun x : Nat => x) [2, 3] [(1, 1), (2, 2)]).1 = [(3, 3)]
    ∧ (get_difference (fun _ => true) (fun x : Nat => x) [2, 3] [(1, 1), (2, 2)]).2.1 = [(1, 1)]
    ∧ dict_get (get_difference (fun _ => true) (fun x : Nat => x) [2, 3] [(1, 1), (2, 2)]).2.2 1
        = none
    ∧ dict_get (get_difference (fun _ => true) (fun x : Nat => x) [2, 3] [(1, 1), (2, 2)]).2.2 2
        = some 2
    ∧ dict_get (get_difference (fun _ => true) (fun x : Nat => x) [2, 3] [(1, 1), (2, 2)]).2.2 3
        = some 3
    ∧ get_difference (fun _ => true) (fun x : Nat => x) [2, 3]
          (get_difference (fun _ => true) (fun x : Nat => x) [2, 3] [(1, 1), (2, 2)]).2.2
        = ([], [], (get_difference (fun _ => true) (fun x : Nat => x) [2, 3] [(1, 1), (2, 2)]).2.2) :=
  ⟨by decide,
   ((claim8_reconciler (fun _ => true) (fun x : Nat => x) [2, 3] [(1, 1), (2, 2)]
      (by decide)).1).trans (by decide),
   ((claim8_reconciler (fun _ => true) (fun x : Nat => x) [2, 3] [(1, 1), (2, 2)]
      (by decide)).2.1).trans (by decide),
   ((claim8_reconciler (fun _ => true) (fun x : Nat => x) [2, 3] [(1, 1), (2, 2)]
      (by decide)).2.2.1 1).trans (by decide),
   ((claim8_reconciler (fun _ => true) (fun x : Nat => x) [2, 3] [(1, 1), (2, 2)]
      (by decide)).2.2.1 2).trans (by decide),
   ((claim8_reconciler (fun _ => true) (fun x : Nat => x) [2, 3] [(1, 1), (2, 2)]
      (by decide)).2.2.1 3).trans (by decide),
   (claim8_reconciler (fun _ => true) (fun x : Nat => x) [2, 3] [(1, 1), (2, 2)]
      (by decide)).2.2.2⟩

end HuaweiMesh
